import Mathlib

/-!
# Verification of the `live_model_impl` decision-serving runtime

Shallow embedding of `reinforcement_learning/rlclientlib/live_model_impl.cc`, of its
earlier version `decision_service/rlclientlib/live_model_impl.cc` and of the experience
replay reduction `vowpalwabbit/expreplay.h`.

Conventions of the embedding

* `const char*` arguments are `Option String` (`none` is the null pointer);
  `api_status*` is `Option api_status` (`none` means no detail sink).
* The contents of the `std::ostringstream` and the `std::string` handed to the logger are
  sequences of bytes; a text stands for the bytes of its UTF-8 encoding.
* `float` values are exact rationals.
* Collaborators whose code is outside the embedded file (logger, factories,
  model capability, exploration library, serializers, configuration) are the
  fields of `Env`.  Stateful collaborators answer as a function of the history
  of collaborator calls made so far, which the facade state records in `calls`.
* A function returns `none` exactly when the C++ would dereference a null
  pointer or index a vector out of bounds.
-/

namespace reinforcement_learning

/-! ## err_constants.h -/

namespace error_code

def success : Int := 0
def invalid_argument : Int := 1
def background_queue_overflow : Int := 2
def eventhub_http_generic : Int := 3
def http_bad_status_code : Int := 4
def action_not_found : Int := 5
def background_thread_start : Int := 6
def not_initialized : Int := 7
def eventhub_generate_SAS_hash : Int := 8
def create_fn_exception : Int := 9
def type_not_registered : Int := 10
def http_uri_not_provided : Int := 11
def last_modified_not_found : Int := 12
def last_modified_invalid : Int := 13
def bad_content_length : Int := 14
def exception_during_http_req : Int := 15
def model_export_frequency_not_provided : Int := 16
def bad_time_interval : Int := 17
def data_callback_exception : Int := 18
def data_callback_not_set : Int := 19

end error_code

/-! ## Data model -/

/-- Modelled from the spec: the `api_status` class (api_status.h is not among the
sources): a numeric code plus a human-readable message. -/
structure api_status where
  error_code : Int
  error_msg : String
deriving DecidableEq

/-- Modelled from the spec: `api_status::try_clear`, "the detail sink is cleared at the
start of every public call"; a null sink is left alone. -/
def api_status.try_clear (status : Option api_status) : Option api_status :=
  status.map (fun _ => { error_code := error_code.success, error_msg := "" })

/-- Modelled from the spec: writing an error into the detail sink, when one was supplied
(what `RETURN_ERROR_LS` and the collaborators do on their failure paths). -/
def api_status.try_update (status : Option api_status) (code : Int) (msg : String) :
    Option api_status :=
  status.map (fun _ => { error_code := code, error_msg := msg })

/-- Modelled from the spec: the status discipline of a collaborator that answers with a
code and a message: "a non-zero code must always be accompanied, on the return path, by a
matching detail if a detail sink was provided"; on success the sink is not touched. -/
def api_status.report (status : Option api_status) (r : Int × String) : Option api_status :=
  if r.1 ≠ error_code.success then api_status.try_update status r.1 r.2 else status

/-- Modelled from the spec: the `ranking_response` class (ranking_response.h is not among
the sources): "an ordered sequence of (action_id, probability) pairs, a chosen action id,
a request identifier (uuid), and a model identifier string". -/
structure ranking_response where
  uuid : String
  choosen_action_id : Nat
  ranking : List (Nat × ℚ)
  model_id : String
deriving DecidableEq

namespace ranking_response

/-- The response a caller creates: no pairs, nothing stamped. -/
def empty : ranking_response :=
  { uuid := "", choosen_action_id := 0, ranking := [], model_id := "" }

def push_back (r : ranking_response) (action_id : Nat) (prob : ℚ) : ranking_response :=
  { r with ranking := r.ranking ++ [(action_id, prob)] }

def set_choosen_action_id (r : ranking_response) (id : Nat) : ranking_response :=
  { r with choosen_action_id := id }

def set_uuid (r : ranking_response) (uuid : String) : ranking_response :=
  { r with uuid := uuid }

def set_model_id (r : ranking_response) (model_id : String) : ranking_response :=
  { r with model_id := model_id }

end ranking_response

/-- The `model_data` class of model_mgmt.h: a byte buffer, its size and the refresh
counter. -/
structure model_data where
  _data : List Nat
  _data_sz : Nat
  _refresh_count : Nat
deriving DecidableEq

/-- The bytes of a C string: the UTF-8 encoding of the text. -/
def bytes (s : String) : List UInt8 :=
  s.data.flatMap String.utf8EncodeChar

/-- One call made by the facade on a collaborator, with the arguments it passed. -/
inductive Call where
  | logger_init
  | config_get (name defval : String)
  | config_get_float (name : String) (defval : ℚ)
  | m_factory_create (impl : String)
  | t_factory_create (impl : String)
  | bg_model_proc_init
  | model_update (data : model_data)
  | model_choose_rank (rnd_seed features : String)
  | report_error (status : api_status)
  | append_ranking (sbuf : List UInt8)
  | append_outcome (sbuf : List UInt8)
  | uuid_generate
deriving DecidableEq

/-- The collaborators of `live_model_impl` whose code lies outside the embedded file.
A stateful collaborator receives the history of the calls made before the current one. -/
structure Env where
  /-- The `name::INITIAL_EPSILON` of constants.h. -/
  INITIAL_EPSILON : String
  /-- The `name::MODEL_IMPLEMENTATION` of constants.h. -/
  MODEL_IMPLEMENTATION : String
  /-- The `value::VW` of constants.h. -/
  VW : String
  /-- The `name::MODEL_SRC` of constants.h. -/
  MODEL_SRC : String
  /-- The `value::AZURE_STORAGE_BLOB` of constants.h. -/
  AZURE_STORAGE_BLOB : String
  /-- The `error_code::exploration_error`. -/
  exploration_error : Int
  /-- The message that goes with `exploration_error`. -/
  exploration_error_s : String
  /-- The message that goes with `invalid_argument`. -/
  invalid_argument_s : String
  /-- The `S_EXPLORATION_OK` of the exploration library. -/
  S_EXPLORATION_OK : Int
  /-- The `config_collection::get(name, defval)`. -/
  get : String → String → String
  /-- The `config_collection::get_float(name, defval)`. -/
  get_float : String → ℚ → ℚ
  /-- The `utility::get_action_count(action_count, context, status)`: code, message and the
  count written to the out-parameter. -/
  get_action_count : String → (Int × String) × Nat
  /-- The `exploration::generate_epsilon_greedy(epsilon, top_action, begin(pdf), end(pdf))`:
  its code and the contents it leaves in the vector. -/
  generate_epsilon_greedy : ℚ → Nat → List ℚ → Int × List ℚ
  /-- Writing through the iterators of a vector cannot resize it. -/
  generate_epsilon_greedy_length :
    ∀ e t pdf, (generate_epsilon_greedy e t pdf).2.length = pdf.length
  /-- The `exploration::sample_after_normalizing(seed, begin(pdf), end(pdf), chosen_index)`:
  its code, the contents it leaves in the vector and the index written to the
  out-parameter. -/
  sample_after_normalizing : String → List ℚ → Int × List ℚ × Nat
  /-- Writing through the iterators of a vector cannot resize it. -/
  sample_after_normalizing_length :
    ∀ seed pdf, (sample_after_normalizing seed pdf).2.1.length = pdf.length
  /-- What `ranking_event::serialize(_buff, uuid, context, response)` writes to the stream. -/
  ranking_event_serialize : String → String → ranking_response → String
  /-- What `outcome_event::serialize(_buff, uuid, outcome_data)` writes to the stream. -/
  outcome_event_serialize : String → String → String
  /-- The `std::to_string(float)`. -/
  to_string : ℚ → String
  /-- The `boost::uuids::to_string(boost::uuids::random_generator()())`. -/
  uuid_generate : List Call → String
  /-- The `logger::init(status)`. -/
  logger_init : List Call → Int × String
  /-- The `logger::append_ranking(sbuf, status)`. -/
  append_ranking : List Call → List UInt8 → Int × String
  /-- The `logger::append_outcome(sbuf, status)`. -/
  append_outcome : List Call → List UInt8 → Int × String
  /-- The `_m_factory->create(&pmodel, model_impl, _configuration, status)`: code, message and
  the handle written to `pmodel`. -/
  m_factory_create : List Call → String → (Int × String) × Nat
  /-- The `_t_factory->create(&ptransport, tranport_impl, _configuration, status)`. -/
  t_factory_create : List Call → String → (Int × String) × Nat
  /-- The `_bg_model_proc.init(_model_download.get(), status)`. -/
  bg_model_proc_init : List Call → Int × String
  /-- The `i_model::update(data, status)`. -/
  model_update : List Call → model_data → Int × String
  /-- The `i_model::choose_rank(rnd_seed, features, response, status)`: code, message and the
  response as the model leaves it. -/
  model_choose_rank : List Call → String → String → ranking_response →
    (Int × String) × ranking_response

/-- The state of a `live_model_impl` object, with the history of the calls it has made on
its collaborators. -/
structure live_model_impl where
  _initial_epsilon : ℚ
  _model_data_received : Bool
  /-- The bytes held by the `std::ostringstream _buff`. -/
  _buff : List UInt8
  /-- The `_model` pointer: `none` until `init_model` has stored the created model. -/
  _model : Option Nat
  /-- The `_transport` pointer. -/
  _transport : Option Nat
  /-- Whether `_model_download` has been set. -/
  _model_download : Bool
  /-- Calls made on the collaborators so far, oldest first. -/
  calls : List Call
deriving DecidableEq

/-- Records a collaborator call in the history. -/
def live_model_impl.record (self : live_model_impl) (c : Call) : live_model_impl :=
  { self with calls := self.calls ++ [c] }

/-- What a public call hands back: return code, the object afterwards, the caller's
response and the caller's status sink. -/
structure Result where
  scode : Int
  self : live_model_impl
  response : ranking_response
  status : Option api_status
deriving DecidableEq

/-- Stream write and read: `_buff.seekp(0, beg)`, the writing of `text`, then `_buff.str()`.
The bytes of the text replace the bytes they cover; the bytes of the stream beyond them
stay, and `str()` returns them too. -/
def seekp_write (buff : List UInt8) (text : String) : List UInt8 :=
  bytes text ++ buff.drop (bytes text).length

/-- A null or empty C string. -/
def is_null_or_empty (arg : Option String) : Bool :=
  match arg with
  | none => true
  | some s => s.isEmpty

/-- Modelled from the spec: `check_null_or_empty` is declared in live_model_impl.cc and
defined elsewhere; the spec gives it as "invalid-argument (null/empty identifier or
context)". -/
def check_null_or_empty (env : Env) (arg1 arg2 : Option String) (status : Option api_status) :
    Int × Option api_status :=
  if is_null_or_empty arg1 || is_null_or_empty arg2 then
    (error_code.invalid_argument,
      api_status.try_update status error_code.invalid_argument env.invalid_argument_s)
  else
    (error_code.success, status)

/-! ## live_model_impl.cc -/

/-- The loop `for (idx = 0; idx < pdf.size(); ++idx) if (top_action_id != idx)
response.push_back(idx, pdf[idx]);` of `explore_only`. -/
def push_back_rest (top_action_id : Nat) (pdf : List ℚ) (response : ranking_response) :
    ranking_response :=
  (List.range pdf.length).foldl
    (fun r idx => if top_action_id ≠ idx then r.push_back idx (pdf.getD idx 0) else r)
    response

/-- The text streamed into the status by `RETURN_ERROR_LS(status, exploration_error)
<< "Exploration error code: " << scode`. -/
def exploration_error_msg (env : Env) (scode : Int) : String :=
  env.exploration_error_s ++ "Exploration error code: " ++ toString scode

/-- Embedding of `live_model_impl::explore_only`: code, response and status afterwards;
`none` when `pdf[top_action_id]` is read from an empty vector. -/
def explore_only (env : Env) (self : live_model_impl) (uuid context : String)
    (response : ranking_response) (status : Option api_status) :
    Option (Int × ranking_response × Option api_status) :=
  -- Generate egreedy pdf
  let ac := env.get_action_count context
  if ac.1.1 ≠ error_code.success then
    some (ac.1.1, response, api_status.report status ac.1)
  else
    let action_count := ac.2
    let pdf : List ℚ := List.replicate action_count 0
    -- Assume that the user's top choice for action is at index 0
    let top_action_id : Nat := 0
    let g := env.generate_epsilon_greedy self._initial_epsilon top_action_id pdf
    if env.S_EXPLORATION_OK ≠ g.1 then
      some (env.exploration_error, response,
        api_status.try_update status env.exploration_error (exploration_error_msg env g.1))
    else
      -- Pick using the pdf
      let smp := env.sample_after_normalizing uuid g.2
      if env.S_EXPLORATION_OK ≠ smp.1 then
        some (env.exploration_error, response,
          api_status.try_update status env.exploration_error (exploration_error_msg env smp.1))
      else
        let pdf := smp.2.1
        match pdf[top_action_id]? with
        | none => none
        | some p =>
          let response := response.push_back top_action_id p
          -- Setup response with pdf from prediction and choosen action
          let response := push_back_rest top_action_id pdf response
          let response := response.set_choosen_action_id top_action_id
          some (error_code.success, response, status)

/-- Embedding of `live_model_impl::explore_exploit`: the model capability is asked for the
ranking; `none` when `_model` is null. -/
def explore_exploit (env : Env) (self : live_model_impl) (uuid context : String)
    (response : ranking_response) (status : Option api_status) :
    Option (Int × live_model_impl × ranking_response × Option api_status) :=
  match self._model with
  | none => none
  | some _ =>
    let r := env.model_choose_rank self.calls uuid context response
    some (r.1.1, self.record (Call.model_choose_rank uuid context), r.2,
      api_status.report status r.1)

/-- Embedding of `live_model_impl::choose_rank(uuid, context, response, status)`. -/
def choose_rank (env : Env) (self : live_model_impl) (uuid context : Option String)
    (response : ranking_response) (status : Option api_status) : Option Result :=
  -- clear previous errors if any
  let status := api_status.try_clear status
  -- check arguments
  let chk := check_null_or_empty env uuid context status
  if chk.1 ≠ error_code.success then
    some { scode := chk.1, self := self, response := response, status := chk.2 }
  else
    match uuid, context with
    | some uuid, some context =>
      let explored : Option (Int × live_model_impl × ranking_response × Option api_status) :=
        if !self._model_data_received then
          match explore_only env self uuid context response chk.2 with
          | none => none
          | some (scode, response, status) =>
            if scode ≠ error_code.success then some (scode, self, response, status)
            else some (scode, self, response.set_model_id "N/A", status)
        else
          explore_exploit env self uuid context response chk.2
      match explored with
      | none => none
      | some (scode, self, response, status) =>
        if scode ≠ error_code.success then
          some { scode := scode, self := self, response := response, status := status }
        else
          let response := response.set_uuid uuid
          -- Serialize the event
          let sbuf := seekp_write self._buff (env.ranking_event_serialize uuid context response)
          let self := { self with _buff := sbuf }
          -- Send the ranking event to the backend
          let lg := env.append_ranking self.calls sbuf
          let self := self.record (Call.append_ranking sbuf)
          if lg.1 ≠ error_code.success then
            some { scode := lg.1, self := self, response := response,
                   status := api_status.report status lg }
          else
            some { scode := error_code.success, self := self, response := response,
                   status := status }
    | _, _ => none

/-- Embedding of `live_model_impl::choose_rank(context, response, status)`: the uuid is
auto-generated. -/
def choose_rank_auto (env : Env) (self : live_model_impl) (context : Option String)
    (response : ranking_response) (status : Option api_status) : Option Result :=
  let uuid := env.uuid_generate self.calls
  choose_rank env (self.record Call.uuid_generate) (some uuid) context response status

/-- Embedding of `live_model_impl::report_outcome(uuid, outcome_data, status)`. -/
def report_outcome (env : Env) (self : live_model_impl) (uuid outcome_data : Option String)
    (status : Option api_status) : Option (Int × live_model_impl × Option api_status) :=
  -- Clear previous errors if any
  let status := api_status.try_clear status
  -- Check arguments
  let chk := check_null_or_empty env uuid outcome_data status
  if chk.1 ≠ error_code.success then
    some (chk.1, self, chk.2)
  else
    match uuid, outcome_data with
    | some uuid, some outcome_data =>
      -- Serialize outcome
      let sbuf := seekp_write self._buff (env.outcome_event_serialize uuid outcome_data)
      let self := { self with _buff := sbuf }
      -- Send the outcome event to the backend
      let lg := env.append_outcome self.calls sbuf
      let self := self.record (Call.append_outcome sbuf)
      if lg.1 ≠ error_code.success then
        some (lg.1, self, api_status.report chk.2 lg)
      else
        some (error_code.success, self, chk.2)
    | _, _ => none

/-- Embedding of `live_model_impl::report_outcome(uuid, reward, status)`. -/
def report_outcome_float (env : Env) (self : live_model_impl) (uuid : Option String)
    (reward : ℚ) (status : Option api_status) :
    Option (Int × live_model_impl × Option api_status) :=
  report_outcome env self uuid (some (env.to_string reward)) status

/-- Embedding of `live_model_impl::init_model`. -/
def init_model (env : Env) (self : live_model_impl) (status : Option api_status) :
    Int × live_model_impl × Option api_status :=
  let model_impl := env.get env.MODEL_IMPLEMENTATION env.VW
  let self := self.record (Call.config_get env.MODEL_IMPLEMENTATION env.VW)
  let r := env.m_factory_create self.calls model_impl
  let self := self.record (Call.m_factory_create model_impl)
  if r.1.1 ≠ error_code.success then
    (r.1.1, self, api_status.report status r.1)
  else
    (error_code.success, { self with _model := some r.2 }, status)

/-- Embedding of `live_model_impl::init_model_mgmt`. -/
def init_model_mgmt (env : Env) (self : live_model_impl) (status : Option api_status) :
    Int × live_model_impl × Option api_status :=
  -- Initialize transport for the model using transport factory
  let tranport_impl := env.get env.MODEL_SRC env.AZURE_STORAGE_BLOB
  let self := self.record (Call.config_get env.MODEL_SRC env.AZURE_STORAGE_BLOB)
  let r := env.t_factory_create self.calls tranport_impl
  let self := self.record (Call.t_factory_create tranport_impl)
  if r.1.1 ≠ error_code.success then
    (r.1.1, self, api_status.report status r.1)
  else
    -- This class manages lifetime of transport
    let self := { self with _transport := some r.2 }
    -- Initialize background process and start downloading models
    let self := { self with _model_download := true }
    let b := env.bg_model_proc_init self.calls
    (b.1, self.record Call.bg_model_proc_init, api_status.report status b)

/-- Embedding of `live_model_impl::init`. -/
def init (env : Env) (self : live_model_impl) (status : Option api_status) :
    Int × live_model_impl × Option api_status :=
  let l := env.logger_init self.calls
  let self := self.record Call.logger_init
  let status := api_status.report status l
  if l.1 ≠ error_code.success then (l.1, self, status)
  else
    let m := init_model env self status
    if m.1 ≠ error_code.success then m
    else
      let g := init_model_mgmt env m.2.1 m.2.2
      if g.1 ≠ error_code.success then g
      else
        let self := g.2.1
        let eps := env.get_float env.INITIAL_EPSILON (1 / 5)
        let self := self.record (Call.config_get_float env.INITIAL_EPSILON (1 / 5))
        (g.1, { self with _initial_epsilon := eps }, g.2.2)

/-- Embedding of `live_model_impl::handle_model_update`; `none` when `_model` is null. -/
def handle_model_update (env : Env) (self : live_model_impl) (data : model_data) :
    Option live_model_impl :=
  match self._model with
  | none => none
  | some _ =>
    let status : api_status := { error_code := error_code.success, error_msg := "" }
    let r := env.model_update self.calls data
    let self := self.record (Call.model_update data)
    if r.1 ≠ error_code.success then
      let status := (api_status.report (some status) r).getD status
      some (self.record (Call.report_error status))
    else
      some { self with _model_data_received := true }

/-! ## Exploration library, as the specification describes it -/

namespace exploration

def S_EXPLORATION_OK : Int := 0
def E_EXPLORATION_BAD_RANGE : Int := 1

/-- Modelled from the spec: `exploration::generate_epsilon_greedy` (explore_internal.h is
not among the sources): "probability mass `1 - epsilon` concentrated (epsilon-greedy
formula) on the top action, remaining mass `epsilon` spread uniformly over the rest";
an empty range is an error ("action count of zero is an error, not an empty response"). -/
def generate_epsilon_greedy (epsilon : ℚ) (top_action : Nat) (pdf : List ℚ) : Int × List ℚ :=
  if pdf.length = 0 then (E_EXPLORATION_BAD_RANGE, pdf)
  else
    (S_EXPLORATION_OK,
      (List.range pdf.length).map
        (fun i => if i = top_action then 1 - epsilon else epsilon / ((pdf.length : ℚ) - 1)))

/-- Inverse-CDF selection: the first index whose cumulative mass exceeds the draw, the last
index when none does. -/
def pick (draw : ℚ) : List ℚ → Nat
  | [] => 0
  | [_] => 0
  | p :: q :: rest => if draw < p then 0 else pick (draw - p) (q :: rest) + 1

/-- Modelled from the spec: `exploration::sample_after_normalizing` (explore_internal.h is
not among the sources): the pdf is normalized in place and the index is "a deterministic
function of the request identifier and the distribution"; a "degenerate distribution"
(empty, or of total mass zero) is a failure.  The uniform draw in [0,1) that the library
derives from the seed is the parameter `draw`. -/
def sample_after_normalizing (draw : String → ℚ) (seed : String) (pdf : List ℚ) :
    Int × List ℚ × Nat :=
  if pdf.length = 0 ∨ pdf.sum = 0 then (E_EXPLORATION_BAD_RANGE, pdf, 0)
  else
    let normalized := pdf.map (fun p => p / pdf.sum)
    (S_EXPLORATION_OK, normalized, pick (draw seed) normalized)

end exploration

/-- The code and the pdf that `generate_epsilon_greedy` leaves in `explore_only`: it is
called with the configured epsilon, top action 0 and a zeroed vector of `action_count`
entries. -/
def generated (env : Env) (self : live_model_impl) (context : String) : Int × List ℚ :=
  env.generate_epsilon_greedy self._initial_epsilon 0
    (List.replicate (env.get_action_count context).2 0)

/-- The code, the pdf and the index that `sample_after_normalizing` leaves in
`explore_only`: it is seeded with the uuid and runs over the generated pdf. -/
def sampled (env : Env) (self : live_model_impl) (uuid context : String) :
    Int × List ℚ × Nat :=
  env.sample_after_normalizing uuid (generated env self context).2

/-- Lines 62 to 72 of `choose_rank`, the part after exploration: the uuid is stamped, the
event is serialized into the stream and handed to the logger, whose code is the code of the
call. -/
def stamp_and_log (env : Env) (self : live_model_impl) (uuid context : String)
    (response : ranking_response) (status : Option api_status) : Result :=
  let response := response.set_uuid uuid
  let sbuf := seekp_write self._buff (env.ranking_event_serialize uuid context response)
  let lg := env.append_ranking self.calls sbuf
  { scode := lg.1
    self := live_model_impl.record { self with _buff := sbuf } (Call.append_ranking sbuf)
    response := response
    status := api_status.report status lg }

/-- Lines 51 to 60 of `choose_rank`, the dispatch on the readiness flag: code, object,
response and status after exploration. -/
def explore (env : Env) (self : live_model_impl) (uuid context : String)
    (response : ranking_response) (status : Option api_status) :
    Option (Int × live_model_impl × ranking_response × Option api_status) :=
  if !self._model_data_received then
    match explore_only env self uuid context response status with
    | none => none
    | some (scode, response, status) =>
      if scode ≠ error_code.success then some (scode, self, response, status)
      else some (scode, self, response.set_model_id "N/A", status)
  else
    explore_exploit env self uuid context response status

/-- The events handed to the logger among `calls`. -/
def logged_events (calls : List Call) : List (List UInt8) :=
  calls.filterMap fun c =>
    match c with
    | Call.append_ranking sbuf => some sbuf
    | Call.append_outcome sbuf => some sbuf
    | _ => none

/-! ### The steps of `init`, for the statement of their order -/

/-- History after step 1 of `init`, the logger's init. -/
def init_history1 (self : live_model_impl) : List Call :=
  self.calls ++ [Call.logger_init]

/-- History after step 2, the creation of the model by the model factory (which follows
the read of the configured implementation). -/
def init_history2 (env : Env) (self : live_model_impl) : List Call :=
  init_history1 self ++
    [Call.config_get env.MODEL_IMPLEMENTATION env.VW,
     Call.m_factory_create (env.get env.MODEL_IMPLEMENTATION env.VW)]

/-- History after step 3, the creation of the transport by the transport factory (which
follows the read of the configured source). -/
def init_history3 (env : Env) (self : live_model_impl) : List Call :=
  init_history2 env self ++
    [Call.config_get env.MODEL_SRC env.AZURE_STORAGE_BLOB,
     Call.t_factory_create (env.get env.MODEL_SRC env.AZURE_STORAGE_BLOB)]

/-- History after step 4, the init of the background model manager. -/
def init_history4 (env : Env) (self : live_model_impl) : List Call :=
  init_history3 env self ++ [Call.bg_model_proc_init]

/-- History after step 5, the read of the exploration epsilon. -/
def init_history5 (env : Env) (self : live_model_impl) : List Call :=
  init_history4 env self ++ [Call.config_get_float env.INITIAL_EPSILON (1 / 5)]

/-- The code the logger's init answers in step 1. -/
def init_code1 (env : Env) (self : live_model_impl) : Int :=
  (env.logger_init self.calls).1

/-- The code the model factory answers in step 2. -/
def init_code2 (env : Env) (self : live_model_impl) : Int :=
  (env.m_factory_create
    (init_history1 self ++ [Call.config_get env.MODEL_IMPLEMENTATION env.VW])
    (env.get env.MODEL_IMPLEMENTATION env.VW)).1.1

/-- The code the transport factory answers in step 3. -/
def init_code3 (env : Env) (self : live_model_impl) : Int :=
  (env.t_factory_create
    (init_history2 env self ++ [Call.config_get env.MODEL_SRC env.AZURE_STORAGE_BLOB])
    (env.get env.MODEL_SRC env.AZURE_STORAGE_BLOB)).1.1

/-- The code the background model manager's init answers in step 4. -/
def init_code4 (env : Env) (self : live_model_impl) : Int :=
  (env.bg_model_proc_init (init_history3 env self)).1

/-- A test double for the collaborators: the exploration library is the one the
specification describes, seeded by `draw`; a context is a string of letters, one for each
action, or of `#` signs, and anything else in it makes it malformed; the logger accepts an
event while fewer than `capacity` events have been handed to it and answers
`background_queue_overflow` afterwards; the only reward `to_string` renders is 0.75; every
other collaborator succeeds. -/
def sample_env (draw : String → ℚ) (capacity : Nat) : Env where
  INITIAL_EPSILON := "InitialExplorationEpsilon"
  MODEL_IMPLEMENTATION := "ModelImplementation"
  VW := "VW"
  MODEL_SRC := "ModelSource"
  AZURE_STORAGE_BLOB := "AZURE_STORAGE_BLOB"
  exploration_error := 20
  exploration_error_s := "Exploration error. "
  invalid_argument_s := "Invalid arguments. "
  S_EXPLORATION_OK := exploration.S_EXPLORATION_OK
  get := fun _ defval => defval
  get_float := fun _ defval => defval
  get_action_count := fun context =>
    if context.toList.all (fun ch => ch.isAlpha || ch == '#') then
      ((error_code.success, ""), (context.toList.filter Char.isAlpha).length)
    else
      ((error_code.invalid_argument, "Malformed context. "), 0)
  generate_epsilon_greedy := exploration.generate_epsilon_greedy
  generate_epsilon_greedy_length := by
    intro e t pdf
    unfold exploration.generate_epsilon_greedy
    split <;> simp
  sample_after_normalizing := exploration.sample_after_normalizing draw
  sample_after_normalizing_length := by
    intro seed pdf
    unfold exploration.sample_after_normalizing
    split <;> simp
  ranking_event_serialize := fun uuid context _ => uuid ++ ":" ++ context
  outcome_event_serialize := fun uuid outcome_data => uuid ++ ":" ++ outcome_data
  to_string := fun r => if r = 3 / 4 then "0.750000" else "0.000000"
  uuid_generate := fun calls => "uuid-" ++ toString calls.length
  logger_init := fun _ => (error_code.success, "")
  append_ranking := fun calls _ =>
    if (logged_events calls).length < capacity then (error_code.success, "")
    else (error_code.background_queue_overflow, "Queue is full. ")
  append_outcome := fun calls _ =>
    if (logged_events calls).length < capacity then (error_code.success, "")
    else (error_code.background_queue_overflow, "Queue is full. ")
  m_factory_create := fun _ _ => ((error_code.success, ""), 1)
  t_factory_create := fun _ _ => ((error_code.success, ""), 2)
  bg_model_proc_init := fun _ => (error_code.success, "")
  model_update := fun _ _ => (error_code.success, "")
  model_choose_rank := fun _ _ _ response => ((error_code.success, ""), response)

/-- A freshly constructed object: no model data received, nothing in the stream, no
collaborator called yet. -/
def fresh (epsilon : ℚ) : live_model_impl :=
  { _initial_epsilon := epsilon, _model_data_received := false, _buff := [],
    _model := none, _transport := none, _model_download := false, calls := [] }

namespace decision_service

/-- The collaborators of the decision_service `live_model_impl` whose code lies outside the
embedded file.  A stateful collaborator receives the history of the calls made before the
current one. -/
structure Env where
  /-- The message that goes with `invalid_argument`. -/
  invalid_argument_s : String
  /-- What `ranking_event::serialize(_buff, uuid, context, response, model_id)` writes to
  the stream. -/
  ranking_event_serialize : String → String → ranking_response → String → String
  /-- What `outcome_event::serialize(_buff, uuid, outcome_data)` writes to the stream. -/
  outcome_event_serialize : String → String → String
  /-- The `std::to_string(float)`. -/
  to_string : ℚ → String
  /-- The `boost::uuids::to_string(boost::uuids::random_generator()())`. -/
  uuid_generate : List Call → String
  /-- The `logger::init(status)`. -/
  logger_init : List Call → Int × String
  /-- The `logger::append_ranking(sbuf, status)`. -/
  append_ranking : List Call → List UInt8 → Int × String
  /-- The `logger::append_outcome(sbuf, status)`. -/
  append_outcome : List Call → List UInt8 → Int × String

/-- The state of a decision_service `live_model_impl` object, with the history of the calls
it has made on its collaborators. -/
structure live_model_impl where
  /-- The bytes held by the `std::ostringstream _buff`. -/
  _buff : List UInt8
  /-- Calls made on the collaborators so far, oldest first. -/
  calls : List Call
deriving DecidableEq

/-- Records a collaborator call in the history. -/
def live_model_impl.record (self : live_model_impl) (c : Call) : live_model_impl :=
  { self with calls := self.calls ++ [c] }

/-- What a public call hands back: return code, the object afterwards, the caller's
response and the caller's status sink. -/
structure Result where
  scode : Int
  self : live_model_impl
  response : ranking_response
  status : Option api_status
deriving DecidableEq

/-- Modelled from the spec: `check_null_or_empty` is declared in live_model_impl.cc and
defined elsewhere; the spec gives it as "invalid-argument (null/empty identifier or
context)". -/
def check_null_or_empty (env : Env) (arg1 arg2 : Option String) (status : Option api_status) :
    Int × Option api_status :=
  if is_null_or_empty arg1 || is_null_or_empty arg2 then
    (error_code.invalid_argument,
      api_status.try_update status error_code.invalid_argument env.invalid_argument_s)
  else
    (error_code.success, status)

/-- Embedding of the decision_service `live_model_impl::init`. -/
def init (env : Env) (self : live_model_impl) (status : Option api_status) :
    Int × live_model_impl × Option api_status :=
  let l := env.logger_init self.calls
  (l.1, self.record Call.logger_init, api_status.report status l)

/-- Embedding of the decision_service
`live_model_impl::choose_rank(uuid, context, response, status)`. -/
def choose_rank (env : Env) (self : live_model_impl) (uuid context : Option String)
    (response : ranking_response) (status : Option api_status) : Option Result :=
  -- clear previous errors if any
  let status := api_status.try_clear status
  -- check arguments
  let chk := check_null_or_empty env uuid context status
  if chk.1 ≠ error_code.success then
    some { scode := chk.1, self := self, response := response, status := chk.2 }
  else
    match uuid, context with
    | some uuid, some context =>
      let response := response.push_back 2 (2 / 5)
      let response := response.push_back 1 (3 / 10)
      let response := response.push_back 4 (1 / 5)
      let response := response.push_back 3 (1 / 10)
      let model_id := "model_id"
      -- send the ranking event to the backend
      let sbuf := seekp_write self._buff
        (env.ranking_event_serialize uuid context response model_id)
      let self := { self with _buff := sbuf }
      let lg := env.append_ranking self.calls sbuf
      let self := self.record (Call.append_ranking sbuf)
      if lg.1 ≠ error_code.success then
        some { scode := lg.1, self := self, response := response,
               status := api_status.report chk.2 lg }
      else
        some { scode := error_code.success, self := self,
               response := response.set_uuid uuid, status := chk.2 }
    | _, _ => none

/-- Embedding of the decision_service `live_model_impl::choose_rank(context, response,
status)`: the call it makes is `choose_rank(context, <generated id>, response, status)`. -/
def choose_rank_auto (env : Env) (self : live_model_impl) (context : Option String)
    (response : ranking_response) (status : Option api_status) : Option Result :=
  let generated := env.uuid_generate self.calls
  choose_rank env (self.record Call.uuid_generate) context (some generated) response status

/-- Embedding of the decision_service
`live_model_impl::report_outcome(uuid, outcome_data, status)`. -/
def report_outcome (env : Env) (self : live_model_impl) (uuid outcome_data : Option String)
    (status : Option api_status) : Option (Int × live_model_impl × Option api_status) :=
  -- clear previous errors if any
  let status := api_status.try_clear status
  -- check arguments
  let chk := check_null_or_empty env uuid outcome_data status
  if chk.1 ≠ error_code.success then
    some (chk.1, self, chk.2)
  else
    match uuid, outcome_data with
    | some uuid, some outcome_data =>
      -- send the outcome event to the backend
      let sbuf := seekp_write self._buff (env.outcome_event_serialize uuid outcome_data)
      let self := { self with _buff := sbuf }
      let lg := env.append_outcome self.calls sbuf
      let self := self.record (Call.append_outcome sbuf)
      if lg.1 ≠ error_code.success then
        some (lg.1, self, api_status.report chk.2 lg)
      else
        some (error_code.success, self, chk.2)
    | _, _ => none

/-- Embedding of the decision_service `live_model_impl::report_outcome(uuid, reward,
status)`. -/
def report_outcome_float (env : Env) (self : live_model_impl) (uuid : Option String)
    (reward : ℚ) (status : Option api_status) :
    Option (Int × live_model_impl × Option api_status) :=
  report_outcome env self uuid (some (env.to_string reward)) status

/-- A test double for the collaborators: the serialized ranking event is
`uuid:context:model_id`, the generator answers "generated-id" followed by the number of
calls made so far, and the logger accepts every event. -/
def sample_env : Env where
  invalid_argument_s := "Invalid arguments. "
  ranking_event_serialize := fun uuid context _ model_id =>
    uuid ++ ":" ++ context ++ ":" ++ model_id
  outcome_event_serialize := fun uuid outcome_data => uuid ++ ":" ++ outcome_data
  to_string := fun r => if r = 3 / 4 then "0.750000" else "0.000000"
  uuid_generate := fun calls => "generated-id" ++ toString calls.length
  logger_init := fun _ => (error_code.success, "")
  append_ranking := fun _ _ => (error_code.success, "")
  append_outcome := fun _ _ => (error_code.success, "")

/-- A freshly constructed object. -/
def fresh : live_model_impl :=
  { _buff := [], calls := [] }

end decision_service

end reinforcement_learning

/-! ## vowpalwabbit/expreplay.h

Conventions of the embedding

* An example is a value of an arbitrary type `α`; `buf` holds "the deep copies of
  examples", so storing an example in a slot makes the slot equal to it.
* The buffer size `N` of `struct expreplay` is fixed when the reduction is set up and is a
  parameter of the state type; `buf` and `filled` are the two arrays of `N` entries.
* The base learner, the label parser and the random generator are the fields of `Env`.  The
  calls made on the base learner are recorded in `calls`; the draws made on
  `all->random_state` are counted in `draws`.
* `float` values are exact rationals.
-/

namespace ExpReplay

/-- One call made on the base learner, with the example it was handed. -/
inductive BaseCall (α : Type) where
  | predict (ec : α)
  | learn (ec : α)

/-- What `predict_or_learn` and `end_pass` use from outside expreplay.h. -/
structure Env (α : Type) where
  /-- The example as `base.predict(ec)` leaves it, after the given earlier calls. -/
  predict : List (BaseCall α) → α → α
  /-- The example as `base.learn(ec)` leaves it, after the given earlier calls. -/
  learn : List (BaseCall α) → α → α
  /-- The label weight `lp.get_weight(&ec.l)`. -/
  get_weight : α → ℚ
  /-- The value returned by the call of `merand48(er.all->random_state)` that follows `k`
  earlier calls. -/
  merand48 : Nat → ℚ

/-- The `struct expreplay` with a buffer of `N` slots. -/
structure expreplay (α : Type) (N : Nat) where
  /-- The deep copies of examples (`N` of them). -/
  buf : Fin N → α
  /-- Which of `buf[]` is filled. -/
  filled : Fin N → Bool
  /-- How many times `base.learn()` is called each time the reduction learns; default 1. -/
  replay_count : Nat
  /-- Number of calls of `merand48` made so far. -/
  draws : Nat
  /-- Calls made on the base learner so far, oldest first. -/
  calls : List (BaseCall α)

/-- The statement `size_t n = (size_t)(merand48(er.all->random_state) * (float)er.N);`
without the advance of the random state: `none` when the product cannot be converted or
the index is not below `N`, where the accesses `er.filled[n]` and `er.buf[n]` are out of
bounds. -/
def sample_slot {α : Type} {N : Nat} (env : Env α) (er : expreplay α N) : Option (Fin N) :=
  let x := env.merand48 er.draws * (N : ℚ)
  if x ≤ -1 then none
  else if h : ⌊x⌋.toNat < N then some ⟨⌊x⌋.toNat, h⟩
  else none

/-- The statement `if (er.filled[n]) base.learn(er.buf[n]);`. -/
def learn_if_filled {α : Type} {N : Nat} (env : Env α) (er : expreplay α N) (n : Fin N) :
    expreplay α N :=
  if er.filled n then
    { er with
      buf := Function.update er.buf n (env.learn er.calls (er.buf n))
      calls := er.calls ++ [BaseCall.learn (er.buf n)] }
  else er

/-- The loop `for (size_t replay = 1; replay < er.replay_count; replay++)` of
`predict_or_learn`, for the number of iterations that remain. -/
def replay_loop {α : Type} {N : Nat} (env : Env α) :
    Nat → expreplay α N → Option (expreplay α N)
  | 0, er => some er
  | k + 1, er =>
    match sample_slot env er with
    | none => none
    | some n => replay_loop env k (learn_if_filled env { er with draws := er.draws + 1 } n)

/-- Embedding of `predict_or_learn<is_learn, lp>`: the state afterwards and the example as
it is left to the caller. -/
def predict_or_learn {α : Type} {N : Nat} (is_learn : Bool) (env : Env α)
    (er : expreplay α N) (ec : α) : Option (expreplay α N × α) :=
  -- regardless of what happens, we must predict
  let ec' := env.predict er.calls ec
  let er := { er with calls := er.calls ++ [BaseCall.predict ec] }
  -- if we're not learning, that's all that has to happen
  if !is_learn || decide (env.get_weight ec' = 0) then some (er, ec')
  else
    match replay_loop env (er.replay_count - 1) er with
    | none => none
    | some er =>
      match sample_slot env er with
      | none => none
      | some n =>
        let er := learn_if_filled env { er with draws := er.draws + 1 } n
        some ({ er with
                filled := Function.update er.filled n true
                buf := Function.update er.buf n ec' }, ec')

/-- The body of the loop of `end_pass`, for slot `n`. -/
def end_pass_step {α : Type} {N : Nat} (env : Env α) (er : expreplay α N) (n : Fin N) :
    expreplay α N :=
  if er.filled n then
    { er with
      buf := Function.update er.buf n (env.learn er.calls (er.buf n))
      calls := er.calls ++ [BaseCall.learn (er.buf n)]
      filled := Function.update er.filled n false }
  else er

/-- Embedding of `end_pass`: the loop `for (size_t n = 0; n < er.N; n++)`. -/
def end_pass {α : Type} {N : Nat} (env : Env α) (er : expreplay α N) : expreplay α N :=
  (List.finRange N).foldl (end_pass_step env) er

/-- The state that `expreplay_setup` creates: `filled` is zeroed and nothing has been
called yet. -/
def setup {α : Type} {N : Nat} (buf : Fin N → α) (replay_count : Nat) : expreplay α N :=
  { buf := buf, filled := fun _ => false, replay_count := replay_count, draws := 0,
    calls := [] }

/-- A sequence of calls of `predict_or_learn<true>`, one for each example of the stream: the
state afterwards and the examples as they are left to the caller. -/
def learn_stream {α : Type} {N : Nat} (env : Env α) :
    expreplay α N → List α → Option (expreplay α N × List α)
  | er, [] => some (er, [])
  | er, ec :: rest =>
    match predict_or_learn true env er ec with
    | none => none
    | some (er', ec') =>
      match learn_stream env er' rest with
      | none => none
      | some (er'', outs) => some (er'', ec' :: outs)

/-- The examples handed to `base.learn` among `calls`, in order. -/
def learned {α : Type} (calls : List (BaseCall α)) : List α :=
  calls.filterMap fun c =>
    match c with
    | BaseCall.learn ec => some ec
    | BaseCall.predict _ => none

/-- The examples handed to `base.predict` among `calls`, in order. -/
def predicted {α : Type} (calls : List (BaseCall α)) : List α :=
  calls.filterMap fun c =>
    match c with
    | BaseCall.predict ec => some ec
    | BaseCall.learn _ => none

/-- The examples waiting in the filled slots of the buffer. -/
def pending {α : Type} {N : Nat} (er : expreplay α N) : Multiset α :=
  Finset.univ.sum fun n => if er.filled n then ({er.buf n} : Multiset α) else 0

/-- A test double: examples are (number, weight) pairs that the base learner leaves as they
are, and the draws alternate between 0.5 and 0. -/
def sample_env : Env (Nat × ℚ) where
  predict := fun _ ec => ec
  learn := fun _ ec => ec
  get_weight := fun ec => ec.2
  merand48 := fun k => if k % 2 = 0 then 1 / 2 else 0

end ExpReplay

namespace reinforcement_learning

/-! ## Lists -/

theorem foldl_push_back_ranking (c : Nat → Bool) (v : Nat → ℚ) (l : List Nat)
    (r : ranking_response) :
    l.foldl (fun r idx => if c idx then r.push_back idx (v idx) else r) r =
      { r with ranking := r.ranking ++ List.map (fun i => (i, v i)) (l.filter c) } := by
  induction l generalizing r with
  | nil => simp
  | cons a l ih =>
    rw [List.foldl_cons, ih]
    by_cases h : c a <;> simp [h, ranking_response.push_back]

theorem range_filter_ne_zero (n : Nat) :
    (List.range (n + 1)).filter (fun i => decide (0 ≠ i)) = (List.range n).map Nat.succ := by
  rw [List.range_succ_eq_map, List.filter_cons]
  simp [List.filter_map, Function.comp_def]

theorem push_back_rest_eq (pdf : List ℚ) (r : ranking_response) :
    push_back_rest 0 pdf r =
      { r with
        ranking := r.ranking ++
          List.map (fun i => (i, pdf.getD i 0))
            ((List.range pdf.length).filter (fun i => decide (0 ≠ i))) } := by
  unfold push_back_rest
  have := foldl_push_back_ranking (fun i => decide (0 ≠ i)) (fun i => pdf.getD i 0)
    (List.range pdf.length) r
  simpa using this

theorem map_range_eq_enum (pdf : List ℚ) :
    List.map (fun i => (i, pdf.getD i 0)) (List.range pdf.length) = pdf.enum := by
  apply List.ext_getElem
  · simp
  · intro n h1 h2
    have h3 : n < pdf.length := by simpa using h2
    simp [List.getD_eq_getElem?_getD, List.getElem?_eq_getElem h3]

theorem top_then_rest_eq_enum (p : ℚ) (rest : List ℚ) :
    [(0, p)] ++ List.map (fun i => (i, (p :: rest).getD i 0))
        (List.filter (fun i => decide (0 ≠ i)) (List.range (p :: rest).length)) =
      (p :: rest).enum := by
  rw [← map_range_eq_enum (p :: rest), List.length_cons, range_filter_ne_zero,
    List.range_succ_eq_map]
  simp

theorem enum_cons_replicate (a c : ℚ) (n : Nat) :
    (a :: List.replicate n c).enum = (0, a) :: List.map (fun i => (i + 1, c)) (List.range n) := by
  rw [List.enum_cons]
  congr 1
  apply List.ext_getElem
  · simp
  · intro i h1 h2
    simp [Nat.add_comm]

/-! ## Lemmas on the embedded functions -/

theorem is_null_or_empty_some (x : String) (h : x ≠ "") :
    is_null_or_empty (some x) = false := by
  simp only [is_null_or_empty]
  cases hx : x.isEmpty with
  | false => rfl
  | true => exact absurd ((String.isEmpty_iff x).mp hx) h

theorem check_null_or_empty_ok (env : Env) (uuid context : String)
    (status : Option api_status) (hu : uuid ≠ "") (hc : context ≠ "") :
    check_null_or_empty env (some uuid) (some context) status = (error_code.success, status) := by
  simp [check_null_or_empty, is_null_or_empty_some, hu, hc]

theorem valid_arguments (uuid context : Option String)
    (hv : ¬ (is_null_or_empty uuid = true ∨ is_null_or_empty context = true)) :
    ∃ u c, uuid = some u ∧ context = some c ∧ u ≠ "" ∧ c ≠ "" := by
  push_neg at hv
  obtain ⟨h1, h2⟩ := hv
  cases uuid with
  | none => simp [is_null_or_empty] at h1
  | some u =>
    cases context with
    | none => simp [is_null_or_empty] at h2
    | some c =>
      refine ⟨u, c, rfl, rfl, ?_, ?_⟩
      · intro h; apply h1; subst h; rfl
      · intro h; apply h2; subst h; rfl

theorem choose_rank_invalid (env : Env) (self : live_model_impl)
    (uuid arg : Option String) (response : ranking_response) (status : Option api_status)
    (h : is_null_or_empty uuid = true ∨ is_null_or_empty arg = true) :
    choose_rank env self uuid arg response status =
      some { scode := error_code.invalid_argument, self := self, response := response,
             status := api_status.try_update (api_status.try_clear status)
               error_code.invalid_argument env.invalid_argument_s } := by
  have hb : (is_null_or_empty uuid || is_null_or_empty arg) = true := by
    rcases h with h | h <;> simp [h]
  simp [choose_rank, check_null_or_empty, hb, error_code.invalid_argument, error_code.success]

theorem report_outcome_invalid (env : Env) (self : live_model_impl)
    (uuid arg : Option String) (status : Option api_status)
    (h : is_null_or_empty uuid = true ∨ is_null_or_empty arg = true) :
    report_outcome env self uuid arg status =
      some (error_code.invalid_argument, self,
        api_status.try_update (api_status.try_clear status)
          error_code.invalid_argument env.invalid_argument_s) := by
  have hb : (is_null_or_empty uuid || is_null_or_empty arg) = true := by
    rcases h with h | h <;> simp [h]
  simp [report_outcome, check_null_or_empty, hb, error_code.invalid_argument,
    error_code.success]

theorem sampled_length (env : Env) (self : live_model_impl) (uuid context : String) :
    (sampled env self uuid context).2.1.length = (env.get_action_count context).2 := by
  unfold sampled generated
  rw [env.sample_after_normalizing_length, env.generate_epsilon_greedy_length]
  simp

/-- The success path of `explore_only`: when the action count is at least one and the
library calls succeed, every entry of the sampled pdf is emitted once, in index order, and
the chosen action is the top action. -/
theorem explore_only_success (env : Env) (self : live_model_impl) (uuid context : String)
    (response : ranking_response) (status : Option api_status)
    (hac : (env.get_action_count context).1.1 = error_code.success)
    (hN : 1 ≤ (env.get_action_count context).2)
    (hg : (generated env self context).1 = env.S_EXPLORATION_OK)
    (hs : (sampled env self uuid context).1 = env.S_EXPLORATION_OK) :
    explore_only env self uuid context response status =
      some (error_code.success,
        { response with
          ranking := response.ranking ++ (sampled env self uuid context).2.1.enum
          choosen_action_id := 0 },
        status) := by
  have hlen := sampled_length env self uuid context
  obtain ⟨p, rest, hpdf⟩ : ∃ p rest, (sampled env self uuid context).2.1 = p :: rest := by
    cases h : (sampled env self uuid context).2.1 with
    | nil => rw [h] at hlen; simp at hlen; omega
    | cons p rest => exact ⟨p, rest, rfl⟩
  simp only [sampled, generated] at hg hs hpdf hlen ⊢
  unfold explore_only
  simp only [hac, hg, hs, ne_eq, not_true_eq_false, if_false, hpdf]
  simp only [List.getElem?_cons_zero]
  rw [push_back_rest_eq]
  simp only [ranking_response.push_back, ranking_response.set_choosen_action_id]
  rw [List.append_assoc, top_then_rest_eq_enum]

/-- The code and the response that `explore_only` produces depend on the object only through
the configured epsilon, and not on the status sink. -/
theorem explore_only_congr (env : Env) (s1 s2 : live_model_impl) (uuid context : String)
    (response : ranking_response) (st1 st2 : Option api_status)
    (heps : s1._initial_epsilon = s2._initial_epsilon) :
    (explore_only env s1 uuid context response st1).map (fun x => (x.1, x.2.1)) =
      (explore_only env s2 uuid context response st2).map (fun x => (x.1, x.2.1)) := by
  unfold explore_only
  simp only [heps]
  split_ifs
  · rfl
  · rfl
  · rfl
  · cases (env.sample_after_normalizing uuid
        (env.generate_epsilon_greedy s2._initial_epsilon 0
          (List.replicate (env.get_action_count context).2 0)).2).2.1[0]? <;> rfl

/-- Cold start: `choose_rank` on valid arguments, in terms of what `explore_only` returns. -/
theorem choose_rank_cold (env : Env) (self : live_model_impl) (uuid context : String)
    (response : ranking_response) (status : Option api_status)
    (hu : uuid ≠ "") (hc : context ≠ "") (hflag : self._model_data_received = false) :
    choose_rank env self (some uuid) (some context) response status =
      match explore_only env self uuid context response (api_status.try_clear status) with
      | none => none
      | some (scode, response', status') =>
        if scode ≠ error_code.success then
          some { scode := scode, self := self, response := response', status := status' }
        else
          some (stamp_and_log env self uuid context (response'.set_model_id "N/A") status') := by
  unfold choose_rank
  simp only [check_null_or_empty_ok env uuid context _ hu hc, hflag]
  cases hx : explore_only env self uuid context response (api_status.try_clear status) with
  | none => simp
  | some r =>
    obtain ⟨scode, response', status'⟩ := r
    by_cases hs : scode = error_code.success
    · by_cases hl : (env.append_ranking self.calls (seekp_write self._buff
          (env.ranking_event_serialize uuid context
            ((response'.set_model_id "N/A").set_uuid uuid)))).1 = error_code.success
      · simp [hs, hl, stamp_and_log, api_status.report, live_model_impl.record]
      · simp [hs, hl, stamp_and_log, api_status.report, live_model_impl.record]
    · simp [hs]

/-- Warm mode: `choose_rank` on valid arguments, in terms of what `explore_exploit`
returns. -/
theorem choose_rank_warm (env : Env) (self : live_model_impl) (uuid context : String)
    (response : ranking_response) (status : Option api_status)
    (hu : uuid ≠ "") (hc : context ≠ "") (hflag : self._model_data_received = true) :
    choose_rank env self (some uuid) (some context) response status =
      match explore_exploit env self uuid context response (api_status.try_clear status) with
      | none => none
      | some (scode, self', response', status') =>
        if scode ≠ error_code.success then
          some { scode := scode, self := self', response := response', status := status' }
        else
          some (stamp_and_log env self' uuid context response' status') := by
  unfold choose_rank
  simp only [check_null_or_empty_ok env uuid context _ hu hc, hflag]
  cases hx : explore_exploit env self uuid context response (api_status.try_clear status) with
  | none => simp
  | some r =>
    obtain ⟨scode, self', response', status'⟩ := r
    by_cases hs : scode = error_code.success
    · by_cases hl : (env.append_ranking self'.calls (seekp_write self'._buff
          (env.ranking_event_serialize uuid context (response'.set_uuid uuid)))).1 =
            error_code.success
      · simp [hs, hl, stamp_and_log, api_status.report, live_model_impl.record]
      · simp [hs, hl, stamp_and_log, api_status.report, live_model_impl.record]
    · simp [hs]

/-- On valid arguments `choose_rank` is the dispatch followed, when it succeeded, by the
stamping and logging of the ranking. -/
theorem choose_rank_eq (env : Env) (self : live_model_impl) (uuid context : String)
    (response : ranking_response) (status : Option api_status)
    (hu : uuid ≠ "") (hc : context ≠ "") :
    choose_rank env self (some uuid) (some context) response status =
      match explore env self uuid context response (api_status.try_clear status) with
      | none => none
      | some (scode, self', response', status') =>
        if scode ≠ error_code.success then
          some { scode := scode, self := self', response := response', status := status' }
        else
          some (stamp_and_log env self' uuid context response' status') := by
  cases hflag : self._model_data_received with
  | false =>
    rw [choose_rank_cold env self uuid context response status hu hc hflag]
    simp only [explore, hflag]
    cases explore_only env self uuid context response (api_status.try_clear status) with
    | none => simp
    | some r =>
      obtain ⟨scode, response', status'⟩ := r
      by_cases hs : scode = error_code.success <;> simp [hs]
  | true =>
    rw [choose_rank_warm env self uuid context response status hu hc hflag]
    simp [explore, hflag]

/-- Exploration does not consult the logger. -/
theorem explore_logger_irrelevant (env : Env) (f : List Call → List UInt8 → Int × String)
    (self : live_model_impl) (uuid context : String) (response : ranking_response)
    (status : Option api_status) :
    explore { env with append_ranking := f } self uuid context response status =
      explore env self uuid context response status := rfl

theorem explore_flag (env : Env) (self : live_model_impl) (uuid context : String)
    (response : ranking_response) (status : Option api_status)
    (x : Int × live_model_impl × ranking_response × Option api_status)
    (hx : explore env self uuid context response status = some x) :
    x.2.1._model_data_received = self._model_data_received := by
  unfold explore at hx
  cases hflag : self._model_data_received with
  | false =>
    simp only [hflag, Bool.not_false, if_true] at hx
    cases he : explore_only env self uuid context response status with
    | none => rw [he] at hx; simp at hx
    | some r =>
      obtain ⟨scode, response', status'⟩ := r
      rw [he] at hx
      by_cases hs : scode = error_code.success
      · simp only [hs, ne_eq, not_true_eq_false, if_false, Option.some.injEq] at hx
        rw [← hx]; exact hflag
      · simp only [hs, ne_eq, not_false_eq_true, if_true, Option.some.injEq] at hx
        rw [← hx]; exact hflag
  | true =>
    simp only [hflag, Bool.not_true, Bool.false_eq_true, if_false, explore_exploit] at hx
    cases hm : self._model with
    | none => rw [hm] at hx; simp at hx
    | some m =>
      rw [hm] at hx
      simp only [Option.some.injEq] at hx
      rw [← hx]; exact hflag

theorem choose_rank_flag (env : Env) (self : live_model_impl) (uuid context : Option String)
    (response : ranking_response) (status : Option api_status) (res : Result)
    (hres : choose_rank env self uuid context response status = some res) :
    res.self._model_data_received = self._model_data_received := by
  by_cases hv : is_null_or_empty uuid = true ∨ is_null_or_empty context = true
  · rw [choose_rank_invalid env self uuid context response status hv] at hres
    simp only [Option.some.injEq] at hres
    rw [← hres]
  · obtain ⟨u, c, rfl, rfl, hu, hc⟩ := valid_arguments uuid context hv
    rw [choose_rank_eq env self u c response status hu hc] at hres
    cases he : explore env self u c response (api_status.try_clear status) with
    | none => rw [he] at hres; simp at hres
    | some x =>
      have hf := explore_flag env self u c response _ x he
      obtain ⟨scode, self', response', status'⟩ := x
      rw [he] at hres
      by_cases hs : scode = error_code.success
      · simp only [hs, ne_eq, not_true_eq_false, if_false, Option.some.injEq] at hres
        rw [← hres]
        simpa [stamp_and_log, live_model_impl.record] using hf
      · simp only [hs, ne_eq, not_false_eq_true, if_true, Option.some.injEq] at hres
        rw [← hres]
        exact hf

theorem report_outcome_flag (env : Env) (self : live_model_impl)
    (uuid outcome_data : Option String) (status : Option api_status)
    (res : Int × live_model_impl × Option api_status)
    (hres : report_outcome env self uuid outcome_data status = some res) :
    res.2.1._model_data_received = self._model_data_received := by
  by_cases hv : is_null_or_empty uuid = true ∨ is_null_or_empty outcome_data = true
  · rw [report_outcome_invalid env self uuid outcome_data status hv] at hres
    simp only [Option.some.injEq] at hres
    rw [← hres]
  · obtain ⟨u, c, rfl, rfl, hu, hc⟩ := valid_arguments uuid outcome_data hv
    unfold report_outcome at hres
    simp only [check_null_or_empty_ok env u c _ hu hc] at hres
    by_cases hl : (env.append_outcome self.calls
        (seekp_write self._buff (env.outcome_event_serialize u c))).1 = error_code.success
    · simp [hl, live_model_impl.record] at hres
      rw [← hres]
    · simp [hl, live_model_impl.record] at hres
      rw [← hres]

theorem init_model_flag (env : Env) (self : live_model_impl) (status : Option api_status) :
    (init_model env self status).2.1._model_data_received = self._model_data_received := by
  unfold init_model
  simp only [live_model_impl.record]
  split_ifs <;> rfl

theorem init_model_mgmt_flag (env : Env) (self : live_model_impl)
    (status : Option api_status) :
    (init_model_mgmt env self status).2.1._model_data_received =
      self._model_data_received := by
  unfold init_model_mgmt
  simp only [live_model_impl.record]
  split_ifs <;> rfl

theorem init_flag (env : Env) (self : live_model_impl) (status : Option api_status) :
    (init env self status).2.1._model_data_received = self._model_data_received := by
  unfold init
  simp only
  split_ifs
  · rfl
  · rw [init_model_flag]; rfl
  · rw [init_model_mgmt_flag, init_model_flag]; rfl
  · simp only [live_model_impl.record]
    rw [init_model_mgmt_flag, init_model_flag]

theorem explore_buff (env : Env) (self : live_model_impl) (uuid context : String)
    (response : ranking_response) (status : Option api_status)
    (x : Int × live_model_impl × ranking_response × Option api_status)
    (hx : explore env self uuid context response status = some x) :
    x.2.1._buff = self._buff := by
  unfold explore at hx
  cases hflag : self._model_data_received with
  | false =>
    simp only [hflag, Bool.not_false, if_true] at hx
    cases he : explore_only env self uuid context response status with
    | none => rw [he] at hx; simp at hx
    | some r =>
      obtain ⟨scode, response', status'⟩ := r
      rw [he] at hx
      by_cases hs : scode = error_code.success
      · simp only [hs, ne_eq, not_true_eq_false, if_false, Option.some.injEq] at hx
        rw [← hx]
      · simp only [hs, ne_eq, not_false_eq_true, if_true, Option.some.injEq] at hx
        rw [← hx]
  | true =>
    simp only [hflag, Bool.not_true, Bool.false_eq_true, if_false, explore_exploit] at hx
    cases hm : self._model with
    | none => rw [hm] at hx; simp at hx
    | some m =>
      rw [hm] at hx
      simp only [Option.some.injEq] at hx
      rw [← hx]
      rfl

/-- A successful `choose_rank` went through a successful exploration and the stamping and
logging of its ranking. -/
theorem choose_rank_success (env : Env) (self : live_model_impl) (uuid context : String)
    (response : ranking_response) (status : Option api_status) (res : Result)
    (hu : uuid ≠ "") (hc : context ≠ "")
    (hres : choose_rank env self (some uuid) (some context) response status = some res)
    (hs : res.scode = error_code.success) :
    ∃ self' response' status',
      explore env self uuid context response (api_status.try_clear status) =
        some (error_code.success, self', response', status') ∧
      res = stamp_and_log env self' uuid context response' status' := by
  rw [choose_rank_eq env self uuid context response status hu hc] at hres
  cases he : explore env self uuid context response (api_status.try_clear status) with
  | none => rw [he] at hres; simp at hres
  | some x =>
    obtain ⟨scode, self', response', status'⟩ := x
    rw [he] at hres
    by_cases hsc : scode = error_code.success
    · subst hsc
      simp only [ne_eq, not_true_eq_false, if_false, Option.some.injEq] at hres
      exact ⟨self', response', status', rfl, hres.symm⟩
    · simp only [hsc, ne_eq, not_false_eq_true, if_true, Option.some.injEq] at hres
      rw [← hres] at hs
      exact absurd hs hsc

theorem seekp_write_short (buff : List UInt8) (text : String)
    (h : buff.length ≤ (bytes text).length) : seekp_write buff text = bytes text := by
  unfold seekp_write
  rw [List.drop_eq_nil_of_le h, List.append_nil]

/-- On valid arguments `report_outcome` serializes the event into the stream and hands the
stream's content to the logger, whose code it returns. -/
theorem report_outcome_valid (env : Env) (self : live_model_impl) (uuid outcome_data : String)
    (status : Option api_status) (hu : uuid ≠ "") (hd : outcome_data ≠ "") :
    report_outcome env self (some uuid) (some outcome_data) status =
      some ((env.append_outcome self.calls
          (seekp_write self._buff (env.outcome_event_serialize uuid outcome_data))).1,
        { self with
          _buff := seekp_write self._buff (env.outcome_event_serialize uuid outcome_data)
          calls := self.calls ++ [Call.append_outcome
            (seekp_write self._buff (env.outcome_event_serialize uuid outcome_data))] },
        api_status.report (api_status.try_clear status)
          (env.append_outcome self.calls
            (seekp_write self._buff (env.outcome_event_serialize uuid outcome_data)))) := by
  unfold report_outcome
  simp only [check_null_or_empty_ok env uuid outcome_data _ hu hd]
  by_cases hl : (env.append_outcome self.calls
      (seekp_write self._buff (env.outcome_event_serialize uuid outcome_data))).1 =
        error_code.success
  · simp [hl, live_model_impl.record, api_status.report]
  · simp [hl, live_model_impl.record]

theorem spec_generate (e : ℚ) (n : Nat) :
    exploration.generate_epsilon_greedy e 0 (List.replicate (n + 1) 0) =
      (exploration.S_EXPLORATION_OK, (1 - e) :: List.replicate n (e / (n : ℚ))) := by
  unfold exploration.generate_epsilon_greedy
  simp only [List.length_replicate, Nat.add_one_ne_zero, if_false, List.range_succ_eq_map,
    List.map_cons, List.map_map, if_true, Prod.mk.injEq, true_and, List.cons.injEq]
  apply List.ext_getElem
  · simp
  · intro i h1 h2
    simp

theorem spec_generate_sum (e : ℚ) (n : Nat) :
    ((1 - e) :: List.replicate n (e / (n : ℚ))).sum = if n = 0 then 1 - e else 1 := by
  by_cases hn : n = 0
  · subst hn; simp
  · have hq : (n : ℚ) ≠ 0 := by exact_mod_cast hn
    simp only [List.sum_cons, List.sum_replicate, nsmul_eq_mul, hn, if_false]
    field_simp

theorem spec_sample (draw : String → ℚ) (seed : String) (pdf : List ℚ)
    (hne : pdf.length ≠ 0) (hsum : pdf.sum ≠ 0) :
    exploration.sample_after_normalizing draw seed pdf =
      (exploration.S_EXPLORATION_OK, pdf.map (fun p => p / pdf.sum),
        exploration.pick (draw seed) (pdf.map (fun p => p / pdf.sum))) := by
  unfold exploration.sample_after_normalizing
  simp [hne, hsum]

theorem normalized_sum (pdf : List ℚ) (hsum : pdf.sum ≠ 0) :
    (pdf.map (fun p => p / pdf.sum)).sum = 1 := by
  simp only [div_eq_mul_inv, List.sum_map_mul_right, List.map_id']
  exact mul_inv_cancel₀ hsum

/-- With the exploration library of the specification, both library calls of
`explore_only` succeed on `n + 1` actions unless the distribution is degenerate (a single
action and epsilon 1), and the pdf they leave is the normalized epsilon-greedy pdf. -/
theorem spec_sampled (env : Env) (draw : String → ℚ) (self : live_model_impl)
    (uuid context : String) (n : Nat)
    (hgen : env.generate_epsilon_greedy = exploration.generate_epsilon_greedy)
    (hsmp : env.sample_after_normalizing = exploration.sample_after_normalizing draw)
    (hcount : (env.get_action_count context).2 = n + 1)
    (hdeg : n = 0 → self._initial_epsilon ≠ 1) :
    (generated env self context).1 = exploration.S_EXPLORATION_OK ∧
      (sampled env self uuid context).1 = exploration.S_EXPLORATION_OK ∧
      (sampled env self uuid context).2.1 =
        List.map
          (fun p => p /
            (if n = 0 then 1 - self._initial_epsilon else 1))
          ((1 - self._initial_epsilon) :: List.replicate n (self._initial_epsilon / (n : ℚ))) ∧
      (sampled env self uuid context).2.1.sum = 1 := by
  have hg : generated env self context =
      (exploration.S_EXPLORATION_OK,
        (1 - self._initial_epsilon) :: List.replicate n (self._initial_epsilon / (n : ℚ))) := by
    simp only [generated, hgen, hcount, spec_generate]
  have hsum := spec_generate_sum self._initial_epsilon n
  have hsum0 : ((1 - self._initial_epsilon) ::
      List.replicate n (self._initial_epsilon / (n : ℚ))).sum ≠ 0 := by
    rw [hsum]
    by_cases hn : n = 0
    · simp only [hn, if_true]
      intro h0
      exact hdeg hn (by linarith)
    · simp [hn]
  have hs := spec_sample draw uuid _ (by simp) hsum0
  have hs2 : sampled env self uuid context =
      exploration.sample_after_normalizing draw uuid
        ((1 - self._initial_epsilon) :: List.replicate n (self._initial_epsilon / (n : ℚ))) := by
    simp only [sampled, hg, hsmp]
  rw [hs] at hs2
  refine ⟨by rw [hg], by rw [hs2], ?_, ?_⟩
  · rw [hs2, hsum]
  · rw [hs2]
    exact normalized_sum _ hsum0

/-! ## The test double -/

theorem sample_env_generated (capacity : Nat) (s : live_model_impl)
    (hs : s._initial_epsilon = 1 / 5) :
    generated (sample_env (fun _ => 9 / 10) capacity) s "abcd" =
      (exploration.S_EXPLORATION_OK, [4 / 5, 1 / 15, 1 / 15, 1 / 15]) := by
  have h := spec_generate (1 / 5) 3
  have hc : ((sample_env (fun _ => 9 / 10) capacity).get_action_count "abcd").2 = 3 + 1 := rfl
  simp only [generated, hs, hc]
  simp only [sample_env]
  rw [h]
  norm_num [List.replicate]

theorem sample_env_sampled (capacity : Nat) (s : live_model_impl)
    (hs : s._initial_epsilon = 1 / 5) :
    sampled (sample_env (fun _ => 9 / 10) capacity) s "u1" "abcd" =
      (exploration.S_EXPLORATION_OK, [4 / 5, 1 / 15, 1 / 15, 1 / 15], 2) := by
  have hsum : ([4 / 5, 1 / 15, 1 / 15, 1 / 15] : List ℚ).sum = 1 := by norm_num
  have hsmp := spec_sample (fun _ => 9 / 10) "u1" [4 / 5, 1 / 15, 1 / 15, 1 / 15]
    (by simp) (by rw [hsum]; norm_num)
  simp only [sampled, sample_env_generated capacity s hs]
  simp only [sample_env]
  rw [hsmp, hsum]
  norm_num [exploration.pick]

/-- The test double at epsilon 0.2, uuid "u1" and four actions: what `explore` returns on a
cold object. -/
theorem sample_env_explore (capacity : Nat) (s : live_model_impl)
    (hs : s._initial_epsilon = 1 / 5) (hflag : s._model_data_received = false)
    (status : Option api_status) :
    explore (sample_env (fun _ => 9 / 10) capacity) s "u1" "abcd" ranking_response.empty
        status =
      some (error_code.success, s,
        { uuid := ""
          choosen_action_id := 0
          ranking := [(0, 4 / 5), (1, 1 / 15), (2, 1 / 15), (3, 1 / 15)]
          model_id := "N/A" },
        status) := by
  have hex := explore_only_success (sample_env (fun _ => 9 / 10) capacity) s "u1" "abcd"
    ranking_response.empty status rfl
    (show 1 ≤ ((sample_env (fun _ => 9 / 10) capacity).get_action_count "abcd").2 by
      rw [show ((sample_env (fun _ => 9 / 10) capacity).get_action_count "abcd").2 = 4 from rfl]
      decide)
    (by rw [sample_env_generated capacity s hs]; rfl)
    (by rw [sample_env_sampled capacity s hs]; rfl)
  rw [sample_env_sampled capacity s hs] at hex
  simp only [explore, hflag, Bool.not_false, if_true, hex]
  simp [ranking_response.set_model_id, ranking_response.empty, List.enum, List.enumFrom]

/-! ## Argument validation -/

/-- C1: when the uuid or the context/outcome string is null or empty, `choose_rank` and
`report_outcome` return `invalid_argument` and nothing else happens: the object (its stream
and its history of collaborator calls, so no event reaches the logger) and the response are
exactly as before; only the status sink, if any, receives the error. -/
theorem invalid_argument_before_any_side_effect (env : Env) (self : live_model_impl)
    (uuid arg : Option String) (response : ranking_response) (status : Option api_status)
    (h : is_null_or_empty uuid = true ∨ is_null_or_empty arg = true) :
    choose_rank env self uuid arg response status =
        some { scode := error_code.invalid_argument, self := self, response := response,
               status := api_status.try_update (api_status.try_clear status)
                 error_code.invalid_argument env.invalid_argument_s } ∧
      report_outcome env self uuid arg status =
        some (error_code.invalid_argument, self,
          api_status.try_update (api_status.try_clear status)
            error_code.invalid_argument env.invalid_argument_s) :=
  ⟨choose_rank_invalid env self uuid arg response status h,
    report_outcome_invalid env self uuid arg status h⟩

theorem invalid_argument_before_any_side_effect_witness :
    (is_null_or_empty (some "") = true ∨ is_null_or_empty (some "abcd") = true) ∧
      choose_rank (sample_env (fun _ => 0) 1) (fresh (1 / 5)) (some "") (some "abcd")
        ranking_response.empty none =
        some { scode := error_code.invalid_argument, self := fresh (1 / 5),
               response := ranking_response.empty,
               status := api_status.try_update (api_status.try_clear none)
                 error_code.invalid_argument (sample_env (fun _ => 0) 1).invalid_argument_s } ∧
      report_outcome (sample_env (fun _ => 0) 1) (fresh (1 / 5)) (some "") (some "abcd") none =
        some (error_code.invalid_argument, fresh (1 / 5),
          api_status.try_update (api_status.try_clear none)
            error_code.invalid_argument (sample_env (fun _ => 0) 1).invalid_argument_s) :=
  ⟨Or.inl (by decide),
    invalid_argument_before_any_side_effect (sample_env (fun _ => 0) 1) (fresh (1 / 5))
      (some "") (some "abcd") ranking_response.empty none (Or.inl (by decide))⟩

/-! ## Cold start: the distribution -/

/-- C3: with the exploration library of the specification, configured epsilon `e` (in
`[0,1]` or not) and a context of `N ≥ 2` actions, `explore_only` succeeds and the distribution it
puts into the (empty) response is: action 0 with probability `1 - e`, then each action
`1, …, N-1` with probability `e / (N - 1)`. -/
theorem cold_start_epsilon_greedy_values (env : Env) (draw : String → ℚ)
    (self : live_model_impl) (uuid context : String) (response : ranking_response)
    (status : Option api_status) (N : Nat)
    (hgen : env.generate_epsilon_greedy = exploration.generate_epsilon_greedy)
    (hsmp : env.sample_after_normalizing = exploration.sample_after_normalizing draw)
    (hok : env.S_EXPLORATION_OK = exploration.S_EXPLORATION_OK)
    (hresp : response.ranking = [])
    (hvalid : (env.get_action_count context).1.1 = error_code.success)
    (hcount : (env.get_action_count context).2 = N) (hN : 2 ≤ N) :
    ∃ response', explore_only env self uuid context response status =
        some (error_code.success, response', status) ∧
      response'.ranking =
        (0, 1 - self._initial_epsilon) ::
          List.map (fun i => (i + 1, self._initial_epsilon / ((N : ℚ) - 1)))
            (List.range (N - 1)) := by
  obtain ⟨n, rfl⟩ : ∃ n, N = n + 1 := ⟨N - 1, by omega⟩
  have hn : n ≠ 0 := by omega
  obtain ⟨hg, hs, hpdf, -⟩ := spec_sampled env draw self uuid context n hgen hsmp hcount
    (fun h => absurd h hn)
  have hex := explore_only_success env self uuid context response status
    hvalid (by omega) (by rw [hg, hok]) (by rw [hs, hok])
  refine ⟨_, hex, ?_⟩
  simp only [hresp, List.nil_append, hpdf, hn, if_false, div_one, List.map_id']
  rw [enum_cons_replicate]
  simp

theorem cold_start_epsilon_greedy_values_witness :
    ((fresh (1 / 5))._initial_epsilon = 1 / 5 ∧
        ((sample_env (fun _ => 9 / 10) 1).get_action_count "abcd").2 = 4) ∧
      ∃ response', explore_only (sample_env (fun _ => 9 / 10) 1) (fresh (1 / 5)) "u1" "abcd"
          ranking_response.empty none = some (error_code.success, response', none) ∧
        response'.ranking = [(0, 4 / 5), (1, 1 / 15), (2, 1 / 15), (3, 1 / 15)] := by
  refine ⟨⟨rfl, rfl⟩, ?_⟩
  obtain ⟨r, h1, h2⟩ := cold_start_epsilon_greedy_values (sample_env (fun _ => 9 / 10) 1)
    (fun _ => 9 / 10) (fresh (1 / 5)) "u1" "abcd" ranking_response.empty none 4 rfl rfl rfl
    rfl rfl rfl (by decide)
  refine ⟨r, h1, ?_⟩
  rw [h2]
  norm_num [fresh, List.range_succ]

/-! ## Cold start: chosen action and determinism -/

/-- C4 (the code departs from the claim): epsilon 0.2, four actions, uuid "u1", a seeded
draw of 0.9.  `sample_after_normalizing` succeeds and returns index 2 over the pdf
`[0.8, 1/15, 1/15, 1/15]`, and `choose_rank` succeeds, but the chosen action stored in the
response is 0, the top action: the sampled index is dropped. -/
theorem cold_start_chosen_action_is_not_the_sampled_one :
    sampled (sample_env (fun _ => 9 / 10) 1) (fresh (1 / 5)) "u1" "abcd" =
        (exploration.S_EXPLORATION_OK, [4 / 5, 1 / 15, 1 / 15, 1 / 15], 2) ∧
      (choose_rank (sample_env (fun _ => 9 / 10) 1) (fresh (1 / 5)) (some "u1") (some "abcd")
          ranking_response.empty none).map (fun res => (res.scode, res.response)) =
        some (error_code.success,
          { uuid := "u1"
            choosen_action_id := 0
            ranking := [(0, 4 / 5), (1, 1 / 15), (2, 1 / 15), (3, 1 / 15)]
            model_id := "N/A" }) := by
  refine ⟨sample_env_sampled 1 _ rfl, ?_⟩
  rw [choose_rank_eq _ _ _ _ _ _ (by decide) (by decide),
    sample_env_explore 1 _ rfl rfl]
  simp [stamp_and_log, sample_env, fresh, ranking_response.set_uuid, logged_events]

/-- C5, counterexample: two cold-start calls with the same uuid and context, each on an
empty response, the second made after the first on a logger whose queue holds one event:
the first returns `success`, the second `background_queue_overflow`. -/
theorem cold_start_return_code_differs :
    (fresh (1 / 5))._model_data_received = false ∧
      (live_model_impl.record (fresh (1 / 5))
        (Call.append_ranking (bytes "u1:abcd")))._model_data_received = false ∧
      (choose_rank (sample_env (fun _ => 9 / 10) 1) (fresh (1 / 5)) (some "u1") (some "abcd")
          ranking_response.empty none).map Result.scode = some error_code.success ∧
      (choose_rank (sample_env (fun _ => 9 / 10) 1)
          (live_model_impl.record (fresh (1 / 5)) (Call.append_ranking (bytes "u1:abcd")))
          (some "u1") (some "abcd") ranking_response.empty none).map Result.scode =
        some error_code.background_queue_overflow := by
  refine ⟨rfl, rfl, ?_, ?_⟩
  · rw [choose_rank_eq _ _ _ _ _ _ (by decide) (by decide),
      sample_env_explore 1 _ rfl rfl]
    simp [stamp_and_log, sample_env, fresh, logged_events]
  · rw [choose_rank_eq _ _ _ _ _ _ (by decide) (by decide),
      sample_env_explore 1 _ rfl rfl]
    simp [stamp_and_log, sample_env, fresh, live_model_impl.record, logged_events]

/-- C5, as amended: two cold-start calls with the same uuid, context and configured epsilon,
starting from the same response, whatever else differs in the object (stream, history of
collaborator calls) and in the status sink.  Both leave the same response (same pairs in
the same order, same chosen action).  They return the same code whenever the logger answers
their two ranking events with the same code.  And the code of a call whose exploration
succeeded is the code the logger answers for its event. -/
theorem cold_start_deterministic (env : Env) (s1 s2 : live_model_impl)
    (uuid context : String) (response : ranking_response)
    (st1 st2 : Option api_status)
    (h1 : s1._model_data_received = false) (h2 : s2._model_data_received = false)
    (heps : s1._initial_epsilon = s2._initial_epsilon) :
    (choose_rank env s1 (some uuid) (some context) response st1).map Result.response =
        (choose_rank env s2 (some uuid) (some context) response st2).map Result.response ∧
      (∀ res1 res2,
        choose_rank env s1 (some uuid) (some context) response st1 = some res1 →
        choose_rank env s2 (some uuid) (some context) response st2 = some res2 →
        (env.append_ranking s1.calls (seekp_write s1._buff
            (env.ranking_event_serialize uuid context res1.response))).1 =
          (env.append_ranking s2.calls (seekp_write s2._buff
            (env.ranking_event_serialize uuid context res2.response))).1 →
        res1.scode = res2.scode) ∧
      (uuid ≠ "" → context ≠ "" →
        (∀ r st, explore_only env s1 uuid context response (api_status.try_clear st1) =
            some (error_code.success, r, st) →
          ∃ res1, choose_rank env s1 (some uuid) (some context) response st1 = some res1 ∧
            res1.scode = (env.append_ranking s1.calls (seekp_write s1._buff
              (env.ranking_event_serialize uuid context res1.response))).1) ∧
        (∀ r st, explore_only env s2 uuid context response (api_status.try_clear st2) =
            some (error_code.success, r, st) →
          ∃ res2, choose_rank env s2 (some uuid) (some context) response st2 = some res2 ∧
            res2.scode = (env.append_ranking s2.calls (seekp_write s2._buff
              (env.ranking_event_serialize uuid context res2.response))).1)) := by
  refine ⟨?_, ?_, ?_⟩
  · by_cases hv : is_null_or_empty (some uuid) = true ∨ is_null_or_empty (some context) = true
    · rw [choose_rank_invalid env s1 _ _ response st1 hv,
        choose_rank_invalid env s2 _ _ response st2 hv]
      simp
    · obtain ⟨u, c, hu', hc', hu, hc⟩ := valid_arguments _ _ hv
      simp only [Option.some.injEq] at hu' hc'
      subst hu' hc'
      rw [choose_rank_cold env s1 uuid context response st1 hu hc h1,
        choose_rank_cold env s2 uuid context response st2 hu hc h2]
      have hcong := explore_only_congr env s1 s2 uuid context response
        (api_status.try_clear st1) (api_status.try_clear st2) heps
      cases e1 : explore_only env s1 uuid context response (api_status.try_clear st1) with
      | none =>
        cases e2 : explore_only env s2 uuid context response (api_status.try_clear st2) with
        | none => simp
        | some r2 => rw [e1, e2] at hcong; simp at hcong
      | some r1 =>
        cases e2 : explore_only env s2 uuid context response (api_status.try_clear st2) with
        | none => rw [e1, e2] at hcong; simp at hcong
        | some r2 =>
          obtain ⟨code1, resp1, stat1⟩ := r1
          obtain ⟨code2, resp2, stat2⟩ := r2
          rw [e1, e2] at hcong
          simp only [Option.map_some', Option.some.injEq, Prod.mk.injEq] at hcong
          obtain ⟨rfl, rfl⟩ := hcong
          by_cases hs : code1 = error_code.success
          · simp [hs, stamp_and_log]
          · simp [hs]
  · intro res1 res2 hr1 hr2 hlog
    by_cases hv : is_null_or_empty (some uuid) = true ∨ is_null_or_empty (some context) = true
    · rw [choose_rank_invalid env s1 _ _ response st1 hv] at hr1
      rw [choose_rank_invalid env s2 _ _ response st2 hv] at hr2
      simp only [Option.some.injEq] at hr1 hr2
      rw [← hr1, ← hr2]
    · obtain ⟨u, c, hu', hc', hu, hc⟩ := valid_arguments _ _ hv
      simp only [Option.some.injEq] at hu' hc'
      subst hu' hc'
      rw [choose_rank_cold env s1 uuid context response st1 hu hc h1] at hr1
      rw [choose_rank_cold env s2 uuid context response st2 hu hc h2] at hr2
      have hcong := explore_only_congr env s1 s2 uuid context response
        (api_status.try_clear st1) (api_status.try_clear st2) heps
      cases e1 : explore_only env s1 uuid context response (api_status.try_clear st1) with
      | none => rw [e1] at hr1; simp at hr1
      | some r1 =>
        cases e2 : explore_only env s2 uuid context response (api_status.try_clear st2) with
        | none => rw [e2] at hr2; simp at hr2
        | some r2 =>
          obtain ⟨code1, resp1, stat1⟩ := r1
          obtain ⟨code2, resp2, stat2⟩ := r2
          rw [e1, e2] at hcong
          simp only [Option.map_some', Option.some.injEq, Prod.mk.injEq] at hcong
          obtain ⟨rfl, rfl⟩ := hcong
          rw [e1] at hr1
          rw [e2] at hr2
          by_cases hs : code1 = error_code.success
          · simp only [hs, ne_eq, not_true_eq_false, if_false, Option.some.injEq] at hr1 hr2
            subst hr1 hr2
            exact hlog
          · simp only [hs, ne_eq, not_false_eq_true, if_true, Option.some.injEq] at hr1 hr2
            rw [← hr1, ← hr2]
  · intro hu hc
    constructor
    · intro r st hx
      rw [choose_rank_cold env s1 uuid context response st1 hu hc h1, hx]
      simp only [ne_eq, not_true_eq_false, if_false]
      exact ⟨_, rfl, rfl⟩
    · intro r st hx
      rw [choose_rank_cold env s2 uuid context response st2 hu hc h2, hx]
      simp only [ne_eq, not_true_eq_false, if_false]
      exact ⟨_, rfl, rfl⟩

theorem cold_start_deterministic_witness :
    ((fresh (1 / 5))._model_data_received = false ∧
        (live_model_impl.record (fresh (1 / 5))
          (Call.append_ranking (bytes "u1:abcd")))._model_data_received = false ∧
        (fresh (1 / 5))._initial_epsilon =
          (live_model_impl.record (fresh (1 / 5))
            (Call.append_ranking (bytes "u1:abcd")))._initial_epsilon) ∧
      (∀ b1 b2, ((sample_env (fun _ => 9 / 10) 2).append_ranking (fresh (1 / 5)).calls b1).1 =
        ((sample_env (fun _ => 9 / 10) 2).append_ranking
          (live_model_impl.record (fresh (1 / 5))
            (Call.append_ranking (bytes "u1:abcd"))).calls b2).1) ∧
      (choose_rank (sample_env (fun _ => 9 / 10) 2) (fresh (1 / 5)) (some "u1") (some "abcd")
          ranking_response.empty none).map Result.scode = some error_code.success ∧
      (choose_rank (sample_env (fun _ => 9 / 10) 2) (fresh (1 / 5)) (some "u1") (some "abcd")
          ranking_response.empty none).map (fun res => (res.scode, res.response)) =
        (choose_rank (sample_env (fun _ => 9 / 10) 2)
          (live_model_impl.record (fresh (1 / 5)) (Call.append_ranking (bytes "u1:abcd")))
          (some "u1") (some "abcd") ranking_response.empty
          (some { error_code := 7, error_msg := "stale" })).map
            (fun res => (res.scode, res.response)) := by
  have hlog : ∀ b1 b2,
      ((sample_env (fun _ => 9 / 10) 2).append_ranking (fresh (1 / 5)).calls b1).1 =
        ((sample_env (fun _ => 9 / 10) 2).append_ranking
          (live_model_impl.record (fresh (1 / 5))
            (Call.append_ranking (bytes "u1:abcd"))).calls b2).1 := by
    intro b1 b2
    simp [sample_env, fresh, live_model_impl.record, logged_events]
  have hT := cold_start_deterministic (sample_env (fun _ => 9 / 10) 2) (fresh (1 / 5))
    (live_model_impl.record (fresh (1 / 5)) (Call.append_ranking (bytes "u1:abcd")))
    "u1" "abcd" ranking_response.empty none
    (some { error_code := 7, error_msg := "stale" }) rfl rfl rfl
  obtain ⟨hresp, hcode, -⟩ := hT
  refine ⟨⟨rfl, rfl, rfl⟩, hlog, ?_, ?_⟩
  · rw [choose_rank_eq _ _ _ _ _ _ (by decide) (by decide),
      sample_env_explore 2 _ rfl rfl]
    simp [stamp_and_log, sample_env, fresh, logged_events]
  · cases r1 : choose_rank (sample_env (fun _ => 9 / 10) 2) (fresh (1 / 5)) (some "u1")
        (some "abcd") ranking_response.empty none with
    | none =>
      rw [r1] at hresp
      cases r2 : choose_rank (sample_env (fun _ => 9 / 10) 2)
          (live_model_impl.record (fresh (1 / 5)) (Call.append_ranking (bytes "u1:abcd")))
          (some "u1") (some "abcd") ranking_response.empty
          (some { error_code := 7, error_msg := "stale" }) with
      | none => rfl
      | some b => rw [r2] at hresp; simp at hresp
    | some a =>
      rw [r1] at hresp
      cases r2 : choose_rank (sample_env (fun _ => 9 / 10) 2)
          (live_model_impl.record (fresh (1 / 5)) (Call.append_ranking (bytes "u1:abcd")))
          (some "u1") (some "abcd") ranking_response.empty
          (some { error_code := 7, error_msg := "stale" }) with
      | none => rw [r2] at hresp; simp at hresp
      | some b =>
        rw [r2] at hresp
        simp only [Option.map_some', Option.some.injEq] at hresp
        have hc := hcode a b r1 r2 (hlog _ _)
        simp [hresp, hc]

/-! ## Dispatch on the readiness flag -/

/-- C7: the readiness flag.  `handle_model_update` (the model pointer being set) asks the
model capability to update: when that returns success the flag becomes true and nothing is
reported; when it fails the flag keeps its value and the failure status goes to the error
callback.  `init`, both `choose_rank` and both `report_outcome` leave the flag as it is.
Hence no operation takes the flag from true back to false. -/
theorem readiness_flag_monotone (env : Env) (self : live_model_impl) (data : model_data) :
    (∀ m, self._model = some m →
      ((env.model_update self.calls data).1 = error_code.success →
        handle_model_update env self data =
          some { self with
            _model_data_received := true
            calls := self.calls ++ [Call.model_update data] }) ∧
      ((env.model_update self.calls data).1 ≠ error_code.success →
        handle_model_update env self data =
          some { self with
            calls := self.calls ++ [Call.model_update data,
              Call.report_error
                { error_code := (env.model_update self.calls data).1
                  error_msg := (env.model_update self.calls data).2 }] })) ∧
    (∀ status, (init env self status).2.1._model_data_received = self._model_data_received) ∧
    (∀ uuid context response status res,
      choose_rank env self uuid context response status = some res →
        res.self._model_data_received = self._model_data_received) ∧
    (∀ context response status res,
      choose_rank_auto env self context response status = some res →
        res.self._model_data_received = self._model_data_received) ∧
    (∀ uuid outcome_data status res,
      report_outcome env self uuid outcome_data status = some res →
        res.2.1._model_data_received = self._model_data_received) ∧
    (∀ uuid reward status res,
      report_outcome_float env self uuid reward status = some res →
        res.2.1._model_data_received = self._model_data_received) ∧
    (self._model_data_received = true →
      ∀ s', handle_model_update env self data = some s' → s'._model_data_received = true) := by
  refine ⟨?_, ?_, ?_, ?_, ?_, ?_, ?_⟩
  · intro m hm
    constructor
    · intro hs
      simp [handle_model_update, hm, hs, live_model_impl.record]
    · intro hs
      simp [handle_model_update, hm, hs, live_model_impl.record, api_status.report,
        api_status.try_update]
  · intro status
    exact init_flag env self status
  · intro uuid context response status res hres
    exact choose_rank_flag env self uuid context response status res hres
  · intro context response status res hres
    have h := choose_rank_flag env (self.record Call.uuid_generate)
      (some (env.uuid_generate self.calls)) context response status res hres
    simpa [live_model_impl.record] using h
  · intro uuid outcome_data status res hres
    exact report_outcome_flag env self uuid outcome_data status res hres
  · intro uuid reward status res hres
    exact report_outcome_flag env self uuid _ status res hres
  · intro hflag s' hs'
    unfold handle_model_update at hs'
    cases hm : self._model with
    | none => rw [hm] at hs'; simp at hs'
    | some m =>
      rw [hm] at hs'
      by_cases hs : (env.model_update self.calls data).1 = error_code.success
      · simp [hs, live_model_impl.record] at hs'
        rw [← hs']
      · simp [hs, live_model_impl.record] at hs'
        rw [← hs']
        exact hflag

/-! ## Logging failures -/

/-- C8: exploration has succeeded (cold or warm) and the logger refuses the ranking event.
`choose_rank` returns the logger's code and records the logger's error in the status sink,
and the response it leaves is the explored ranking with the uuid stamped: the very response
that the same call leaves when the logger accepts the event. -/
theorem logging_failure_keeps_ranking (env : Env) (self : live_model_impl)
    (uuid context : String) (response : ranking_response) (status : Option api_status)
    (self' : live_model_impl) (response' : ranking_response) (status' : Option api_status)
    (hu : uuid ≠ "") (hc : context ≠ "")
    (hexp : explore env self uuid context response (api_status.try_clear status) =
      some (error_code.success, self', response', status'))
    (hfail : (env.append_ranking self'.calls (seekp_write self'._buff
      (env.ranking_event_serialize uuid context (response'.set_uuid uuid)))).1 ≠
        error_code.success) :
    choose_rank env self (some uuid) (some context) response status =
        some
          { scode := (env.append_ranking self'.calls (seekp_write self'._buff
              (env.ranking_event_serialize uuid context (response'.set_uuid uuid)))).1
            self := live_model_impl.record
              { self' with
                _buff := seekp_write self'._buff
                  (env.ranking_event_serialize uuid context (response'.set_uuid uuid)) }
              (Call.append_ranking (seekp_write self'._buff
                (env.ranking_event_serialize uuid context (response'.set_uuid uuid))))
            response := response'.set_uuid uuid
            status := api_status.try_update status'
              (env.append_ranking self'.calls (seekp_write self'._buff
                (env.ranking_event_serialize uuid context (response'.set_uuid uuid)))).1
              (env.append_ranking self'.calls (seekp_write self'._buff
                (env.ranking_event_serialize uuid context (response'.set_uuid uuid)))).2 } ∧
      (choose_rank { env with append_ranking := fun _ _ => (error_code.success, "") } self
          (some uuid) (some context) response status).map
          (fun res => (res.scode, res.response)) =
        some (error_code.success, response'.set_uuid uuid) := by
  constructor
  · rw [choose_rank_eq env self uuid context response status hu hc, hexp]
    simp [stamp_and_log, api_status.report, hfail]
  · rw [choose_rank_eq _ self uuid context response status hu hc,
      explore_logger_irrelevant, hexp]
    simp [stamp_and_log]

theorem logging_failure_keeps_ranking_witness :
    explore (sample_env (fun _ => 9 / 10) 0) (fresh (1 / 5)) "u1" "abcd"
        ranking_response.empty
        (api_status.try_clear (some { error_code := 7, error_msg := "stale" })) =
      some (error_code.success, fresh (1 / 5),
        { uuid := ""
          choosen_action_id := 0
          ranking := [(0, 4 / 5), (1, 1 / 15), (2, 1 / 15), (3, 1 / 15)]
          model_id := "N/A" },
        some { error_code := 0, error_msg := "" }) ∧
    (choose_rank (sample_env (fun _ => 9 / 10) 0) (fresh (1 / 5)) (some "u1") (some "abcd")
        ranking_response.empty (some { error_code := 7, error_msg := "stale" })).map
        (fun res => (res.scode, res.response, res.status)) =
      some (error_code.background_queue_overflow,
        { uuid := "u1"
          choosen_action_id := 0
          ranking := [(0, 4 / 5), (1, 1 / 15), (2, 1 / 15), (3, 1 / 15)]
          model_id := "N/A" },
        some { error_code := 2, error_msg := "Queue is full. " }) := by
  have hexp := sample_env_explore 0 (fresh (1 / 5)) rfl rfl
    (api_status.try_clear (some { error_code := 7, error_msg := "stale" }))
  have h := logging_failure_keeps_ranking (sample_env (fun _ => 9 / 10) 0) (fresh (1 / 5))
    "u1" "abcd" ranking_response.empty (some { error_code := 7, error_msg := "stale" })
    _ _ _ (by decide) (by decide) hexp
    (by simp [sample_env, fresh, logged_events, error_code.background_queue_overflow,
      error_code.success])
  refine ⟨hexp, ?_⟩
  rw [h.1]
  simp [sample_env, fresh, logged_events, ranking_response.set_uuid, api_status.try_update,
    api_status.try_clear, error_code.background_queue_overflow]

/-! ## Initialization order -/

/-- C9: `init` runs (1) the logger's init, (2) the model factory, (3) the transport factory,
(4) the background model manager's init, (5) the read of the epsilon, in this order, and
stops at the first step that does not return success: it then returns that step's code,
the history of collaborator calls ends with that step, and the epsilon is as it was.  When
all four fallible steps succeed the epsilon is read from the configuration (default 0.2)
and `init` returns success. -/
theorem init_stops_at_first_failure (env : Env) (self : live_model_impl)
    (status : Option api_status) :
    (init_code1 env self ≠ error_code.success →
      (init env self status).1 = init_code1 env self ∧
      (init env self status).2.1.calls = init_history1 self ∧
      (init env self status).2.1._initial_epsilon = self._initial_epsilon) ∧
    (init_code1 env self = error_code.success →
      init_code2 env self ≠ error_code.success →
      (init env self status).1 = init_code2 env self ∧
      (init env self status).2.1.calls = init_history2 env self ∧
      (init env self status).2.1._initial_epsilon = self._initial_epsilon) ∧
    (init_code1 env self = error_code.success →
      init_code2 env self = error_code.success →
      init_code3 env self ≠ error_code.success →
      (init env self status).1 = init_code3 env self ∧
      (init env self status).2.1.calls = init_history3 env self ∧
      (init env self status).2.1._initial_epsilon = self._initial_epsilon) ∧
    (init_code1 env self = error_code.success →
      init_code2 env self = error_code.success →
      init_code3 env self = error_code.success →
      init_code4 env self ≠ error_code.success →
      (init env self status).1 = init_code4 env self ∧
      (init env self status).2.1.calls = init_history4 env self ∧
      (init env self status).2.1._initial_epsilon = self._initial_epsilon) ∧
    (init_code1 env self = error_code.success →
      init_code2 env self = error_code.success →
      init_code3 env self = error_code.success →
      init_code4 env self = error_code.success →
      (init env self status).1 = error_code.success ∧
      (init env self status).2.1.calls = init_history5 env self ∧
      (init env self status).2.1._initial_epsilon =
        env.get_float env.INITIAL_EPSILON (1 / 5)) := by
  simp only [init_code1, init_code2, init_code3, init_code4, init_history1, init_history2,
    init_history3, init_history4, init_history5]
  simp only [List.append_assoc, List.cons_append, List.nil_append]
  refine ⟨?_, ?_, ?_, ?_, ?_⟩
  · intro h1
    simp [init, h1, live_model_impl.record]
  · intro h1 h2
    simp [init, init_model, h1, h2, live_model_impl.record]
  · intro h1 h2 h3
    simp [init, init_model, init_model_mgmt, h1, h2, h3, live_model_impl.record]
  · intro h1 h2 h3 h4
    simp [init, init_model, init_model_mgmt, h1, h2, h3, h4, live_model_impl.record]
  · intro h1 h2 h3 h4
    simp [init, init_model, init_model_mgmt, h1, h2, h3, h4, live_model_impl.record]

/-! ## Failure of the cold-start exploration -/

/-- A failing `explore_only` hands the response back as it received it. -/
theorem explore_only_failure (env : Env) (self : live_model_impl) (uuid context : String)
    (response : ranking_response) (status : Option api_status)
    (code : Int) (r : ranking_response) (st : Option api_status)
    (hx : explore_only env self uuid context response status = some (code, r, st))
    (hcode : code ≠ error_code.success) : r = response := by
  unfold explore_only at hx
  simp only at hx
  split_ifs at hx with h1 h2 h3
  · simp only [Option.some.injEq, Prod.mk.injEq] at hx
    exact hx.2.1.symm
  · simp only [Option.some.injEq, Prod.mk.injEq] at hx
    exact hx.2.1.symm
  · simp only [Option.some.injEq, Prod.mk.injEq] at hx
    exact hx.2.1.symm
  · split at hx
    · simp at hx
    · simp only [Option.some.injEq, Prod.mk.injEq] at hx
      exact absurd hx.1.symm hcode

/-- C10: cold start on valid arguments, the exploration-error code being a failure code.
When the action count cannot be determined, `choose_rank` returns the code of
`get_action_count`; when `generate_epsilon_greedy` or `sample_after_normalizing` reports an
error, it returns `exploration_error`.  In each case, and whenever `explore_only` fails,
the object (so the logger's history: no event is appended) and the response are left
exactly as they were, and the status sink receives the error. -/
theorem cold_start_failure_is_atomic (env : Env) (self : live_model_impl)
    (uuid context : String) (response : ranking_response) (status : Option api_status)
    (hu : uuid ≠ "") (hc : context ≠ "") (hflag : self._model_data_received = false)
    (hne : env.exploration_error ≠ error_code.success) :
    ((env.get_action_count context).1.1 ≠ error_code.success →
      choose_rank env self (some uuid) (some context) response status =
        some { scode := (env.get_action_count context).1.1
               self := self
               response := response
               status := api_status.try_update (api_status.try_clear status)
                 (env.get_action_count context).1.1 (env.get_action_count context).1.2 }) ∧
    ((env.get_action_count context).1.1 = error_code.success →
      (generated env self context).1 ≠ env.S_EXPLORATION_OK →
      choose_rank env self (some uuid) (some context) response status =
        some { scode := env.exploration_error
               self := self
               response := response
               status := api_status.try_update (api_status.try_clear status)
                 env.exploration_error
                 (exploration_error_msg env (generated env self context).1) }) ∧
    ((env.get_action_count context).1.1 = error_code.success →
      (generated env self context).1 = env.S_EXPLORATION_OK →
      (sampled env self uuid context).1 ≠ env.S_EXPLORATION_OK →
      choose_rank env self (some uuid) (some context) response status =
        some { scode := env.exploration_error
               self := self
               response := response
               status := api_status.try_update (api_status.try_clear status)
                 env.exploration_error
                 (exploration_error_msg env (sampled env self uuid context).1) }) ∧
    (∀ code r st,
      explore_only env self uuid context response (api_status.try_clear status) =
        some (code, r, st) →
      code ≠ error_code.success →
      choose_rank env self (some uuid) (some context) response status =
        some { scode := code, self := self, response := response, status := st }) := by
  rw [choose_rank_cold env self uuid context response status hu hc hflag]
  refine ⟨?_, ?_, ?_, ?_⟩
  · intro h1
    simp [explore_only, h1, api_status.report]
  · intro h1 h2
    simp only [generated] at h2 ⊢
    simp [explore_only, h1, Ne.symm h2, hne]
  · intro h1 h2 h3
    simp only [sampled, generated] at h2 h3 ⊢
    simp [explore_only, h1, h2, Ne.symm h3, hne]
  · intro code r st hx hcode
    have hr := explore_only_failure env self uuid context response _ code r st hx hcode
    subst hr
    rw [hx]
    simp [hcode]

theorem cold_start_failure_is_atomic_witness :
    ((("u1" : String) ≠ "" ∧ ("a-b" : String) ≠ "" ∧
        (fresh (1 / 5))._model_data_received = false ∧
        (sample_env (fun _ => 9 / 10) 1).exploration_error ≠ error_code.success) ∧
      ((sample_env (fun _ => 9 / 10) 1).get_action_count "a-b").1.1 ≠ error_code.success) ∧
    choose_rank (sample_env (fun _ => 9 / 10) 1) (fresh (1 / 5)) (some "u1") (some "a-b")
        ranking_response.empty (some { error_code := 7, error_msg := "stale" }) =
      some { scode := error_code.invalid_argument
             self := fresh (1 / 5)
             response := ranking_response.empty
             status := some { error_code := 1, error_msg := "Malformed context. " } } := by
  have hfail : ((sample_env (fun _ => 9 / 10) 1).get_action_count "a-b").1.1 ≠
      error_code.success := by decide
  have h := (cold_start_failure_is_atomic (sample_env (fun _ => 9 / 10) 1) (fresh (1 / 5))
    "u1" "a-b" ranking_response.empty (some { error_code := 7, error_msg := "stale" })
    (by decide) (by decide) rfl (by decide)).1 hfail
  refine ⟨⟨⟨by decide, by decide, rfl, by decide⟩, hfail⟩, ?_⟩
  rw [h]
  rfl

/-! ## A context without actions -/

/-- C11: cold start on valid arguments with the exploration library of the specification
(whose `generate_epsilon_greedy` rejects an empty range), the exploration-error code being
a failure code.  When the action count of the context is zero, `choose_rank` returns a
result (the read of `pdf[0]` is not reached) whose code is not success, namely the code of
`get_action_count` when that failed and `exploration_error` otherwise; the response and
the object are exactly as before, so no pair was appended and no event logged. -/
theorem zero_action_count_fails (env : Env) (self : live_model_impl)
    (uuid context : String) (response : ranking_response) (status : Option api_status)
    (hgen : env.generate_epsilon_greedy = exploration.generate_epsilon_greedy)
    (hok : env.S_EXPLORATION_OK = exploration.S_EXPLORATION_OK)
    (hne : env.exploration_error ≠ error_code.success)
    (hu : uuid ≠ "") (hc : context ≠ "") (hflag : self._model_data_received = false)
    (hzero : (env.get_action_count context).2 = 0) :
    ∃ res, choose_rank env self (some uuid) (some context) response status = some res ∧
      res.scode ≠ error_code.success ∧
      res.scode = (if (env.get_action_count context).1.1 ≠ error_code.success then
        (env.get_action_count context).1.1 else env.exploration_error) ∧
      res.response = response ∧
      res.self = self := by
  rw [choose_rank_cold env self uuid context response status hu hc hflag]
  by_cases hac : (env.get_action_count context).1.1 = error_code.success
  · have hg : (env.generate_epsilon_greedy self._initial_epsilon 0
        (List.replicate (env.get_action_count context).2 0)).1 ≠ env.S_EXPLORATION_OK := by
      rw [hgen, hok, hzero]
      simp [exploration.generate_epsilon_greedy, exploration.E_EXPLORATION_BAD_RANGE,
        exploration.S_EXPLORATION_OK]
    simp [explore_only, hac, Ne.symm hg, hne]
  · simp [explore_only, hac]

theorem zero_action_count_fails_witness :
    ((sample_env (fun _ => 9 / 10) 1).get_action_count "#").2 = 0 ∧
      ∃ res, choose_rank (sample_env (fun _ => 9 / 10) 1) (fresh (1 / 5)) (some "u1")
          (some "#") ranking_response.empty none = some res ∧
        res.scode ≠ error_code.success ∧
        res.scode = (if ((sample_env (fun _ => 9 / 10) 1).get_action_count "#").1.1 ≠
            error_code.success then
          ((sample_env (fun _ => 9 / 10) 1).get_action_count "#").1.1
          else (sample_env (fun _ => 9 / 10) 1).exploration_error) ∧
        res.response = ranking_response.empty ∧
        res.self = fresh (1 / 5) :=
  ⟨rfl,
    zero_action_count_fails (sample_env (fun _ => 9 / 10) 1) (fresh (1 / 5)) "u1" "#"
      ranking_response.empty none rfl rfl (by decide) (by decide) (by decide) rfl rfl⟩

/-! ## The overloads -/

/-- C12: the uuid-less `choose_rank` is `choose_rank` called with the generated identifier
as uuid and the caller's context as context (the generation being one more collaborator
call).  When it succeeds, the generated identifier is not empty, it is the uuid of the
response, and the event handed to the logger is the serialization of that identifier, the
caller's context and the response, written at the start of the stream. -/
theorem choose_rank_auto_uses_generated_uuid (env : Env) (self : live_model_impl)
    (context : Option String) (response : ranking_response) (status : Option api_status) :
    choose_rank_auto env self context response status =
        choose_rank env (self.record Call.uuid_generate)
          (some (env.uuid_generate self.calls)) context response status ∧
      (∀ res, choose_rank_auto env self context response status = some res →
        res.scode = error_code.success →
        env.uuid_generate self.calls ≠ "" ∧
        res.response.uuid = env.uuid_generate self.calls ∧
        ∃ c, context = some c ∧
          res.self.calls.getLast? =
            some (Call.append_ranking (seekp_write self._buff
              (env.ranking_event_serialize (env.uuid_generate self.calls) c
                res.response)))) := by
  refine ⟨rfl, ?_⟩
  intro res hres hs
  unfold choose_rank_auto at hres
  by_cases hv : is_null_or_empty (some (env.uuid_generate self.calls)) = true ∨
      is_null_or_empty context = true
  · rw [choose_rank_invalid env _ _ context response status hv] at hres
    simp only [Option.some.injEq] at hres
    rw [← hres] at hs
    exact absurd hs (show error_code.invalid_argument ≠ error_code.success by decide)
  · obtain ⟨u, c, hu', rfl, hu, hc⟩ := valid_arguments _ context hv
    simp only [Option.some.injEq] at hu'
    rw [hu'] at hres ⊢
    obtain ⟨self', response', status', hexp, rfl⟩ :=
      choose_rank_success env _ u c response status res hu hc hres hs
    have hb := explore_buff env _ u c response _ _ hexp
    simp only [live_model_impl.record] at hb
    refine ⟨hu, rfl, c, rfl, ?_⟩
    simp [stamp_and_log, live_model_impl.record, hb]

/-- C14 (the code departs from the claim): a fresh object, a logger that accepts both events.
First `report_outcome("u2", "abcdefghijklmnop")`, then `report_outcome("u1", 0.75f)`, the
reward being rendered "0.750000".  Both calls succeed.  The second event handed to the
logger is not the serialization of ("u1", "0.750000"), which is "u1:0.750000": it is
"u1:0.750000ijklmnop", that serialization followed by the bytes of the first event that it
did not cover. -/
theorem report_outcome_logs_stale_bytes :
    (sample_env (fun _ => 9 / 10) 2).to_string (3 / 4) = "0.750000" ∧
      (sample_env (fun _ => 9 / 10) 2).outcome_event_serialize "u1" "0.750000" =
        "u1:0.750000" ∧
      ((report_outcome (sample_env (fun _ => 9 / 10) 2) (fresh (1 / 5)) (some "u2")
          (some "abcdefghijklmnop") none).bind
          (fun first => report_outcome_float (sample_env (fun _ => 9 / 10) 2) first.2.1
            (some "u1") (3 / 4) none)).map
          (fun second => (second.1, logged_events second.2.1.calls)) =
        some (error_code.success,
          [bytes "u2:abcdefghijklmnop", bytes "u1:0.750000ijklmnop"]) ∧
      bytes "u1:0.750000ijklmnop" ≠ bytes "u1:0.750000" := by
  have hstr : (sample_env (fun _ => 9 / 10) 2).to_string (3 / 4) = "0.750000" := by
    simp [sample_env]
  have hw1 : seekp_write [] "u2:abcdefghijklmnop" = bytes "u2:abcdefghijklmnop" := by decide
  have hw2 : seekp_write (bytes "u2:abcdefghijklmnop") "u1:0.750000" =
      bytes "u1:0.750000ijklmnop" := by decide
  have hs1 : (sample_env (fun _ => 9 / 10) 2).outcome_event_serialize "u2"
      "abcdefghijklmnop" = "u2:abcdefghijklmnop" := by decide
  have hs2 : (sample_env (fun _ => 9 / 10) 2).outcome_event_serialize "u1" "0.750000" =
      "u1:0.750000" := by decide
  refine ⟨hstr, hs2, ?_, by decide⟩
  rw [report_outcome_valid _ _ "u2" "abcdefghijklmnop" none (by decide) (by decide)]
  simp only [Option.bind, report_outcome_float, hstr]
  rw [report_outcome_valid _ _ "u1" "0.750000" none (by decide) (by decide)]
  simp only [fresh, hs1, hs2, hw1, hw2]
  simp [sample_env, logged_events, error_code.success]

/-! ## The status sink -/

/-- C15 (the code departs from the claim): `init` is called with a status sink that still
holds the error of an earlier call (code 7), and every step of `init` succeeds.  `init`
returns success and the sink still holds error 7: `init` does not clear the sink, whereas
`report_outcome` on the same sink, also succeeding, leaves it cleared. -/
theorem init_does_not_clear_status :
    (init (sample_env (fun _ => 9 / 10) 1) (fresh (1 / 5))
        (some { error_code := 7, error_msg := "stale" })).1 = error_code.success ∧
      (init (sample_env (fun _ => 9 / 10) 1) (fresh (1 / 5))
        (some { error_code := 7, error_msg := "stale" })).2.2 =
          some { error_code := 7, error_msg := "stale" } ∧
      (report_outcome (sample_env (fun _ => 9 / 10) 1) (fresh (1 / 5)) (some "u1")
        (some "0.750000") (some { error_code := 7, error_msg := "stale" })).map
          (fun res => (res.1, res.2.2)) =
        some (error_code.success, some { error_code := 0, error_msg := "" }) := by
  refine ⟨?_, ?_, ?_⟩
  · simp [init, init_model, init_model_mgmt, sample_env, live_model_impl.record]
  · simp [init, init_model, init_model_mgmt, sample_env, live_model_impl.record,
      api_status.report]
  · unfold report_outcome
    simp only [check_null_or_empty_ok (sample_env (fun _ => 9 / 10) 1) "u1" "0.750000" _
      (by decide) (by decide)]
    simp [sample_env, fresh, logged_events, api_status.try_clear, error_code.success]

/-! ## decision_service: the uuid-less overload -/

namespace decision_service

set_option maxRecDepth 4000 in
/-- C13 (the code departs from the claim): the decision_service uuid-less `choose_rank`
is called with the context "abcd" on a fresh object, the generator answering
"generated-id0".  The call succeeds, the uuid of the response is "abcd", the caller's
context, and the event logged is the serialization with uuid "abcd" and context
"generated-id0": the overload passes its two strings to `choose_rank` in the wrong order. -/
theorem decision_service_choose_rank_auto_swaps_arguments :
    sample_env.uuid_generate fresh.calls = "generated-id0" ∧
      (choose_rank_auto sample_env fresh (some "abcd") ranking_response.empty none).map
          (fun res => (res.scode, res.response.uuid, logged_events res.self.calls)) =
        some (error_code.success, "abcd", [bytes "abcd:generated-id0:model_id"]) := by
  decide

end decision_service

end reinforcement_learning

namespace ExpReplay

/-! ## Experience replay -/

theorem learned_append {α : Type} (l₁ l₂ : List (BaseCall α)) :
    learned (l₁ ++ l₂) = learned l₁ ++ learned l₂ := by
  simp [learned, List.filterMap_append]

theorem predicted_append {α : Type} (l₁ l₂ : List (BaseCall α)) :
    predicted (l₁ ++ l₂) = predicted l₁ ++ predicted l₂ := by
  simp [predicted, List.filterMap_append]

theorem learned_predict {α : Type} (ec : α) : learned [BaseCall.predict ec] = [] := rfl

theorem learned_learn {α : Type} (ec : α) : learned [BaseCall.learn ec] = [ec] := rfl

theorem sample_slot_some {α : Type} {N : Nat} (env : Env α) (er : expreplay α N)
    (hN : 1 ≤ N) (h0 : 0 ≤ env.merand48 er.draws) (h1 : env.merand48 er.draws < 1) :
    ∃ n, sample_slot env er = some n := by
  have hNq : (0 : ℚ) < (N : ℚ) := by exact_mod_cast hN
  have hx0 : 0 ≤ env.merand48 er.draws * (N : ℚ) := mul_nonneg h0 hNq.le
  have hxN : env.merand48 er.draws * (N : ℚ) < (N : ℚ) := by
    calc env.merand48 er.draws * (N : ℚ) < 1 * (N : ℚ) := mul_lt_mul_of_pos_right h1 hNq
      _ = (N : ℚ) := one_mul _
  have hf0 : 0 ≤ ⌊env.merand48 er.draws * (N : ℚ)⌋ := Int.floor_nonneg.mpr hx0
  have hfN : ⌊env.merand48 er.draws * (N : ℚ)⌋ < (N : ℤ) :=
    Int.floor_lt.mpr (by exact_mod_cast hxN)
  have hlt : ⌊env.merand48 er.draws * (N : ℚ)⌋.toNat < N := by omega
  refine ⟨⟨_, hlt⟩, ?_⟩
  unfold sample_slot
  have hneg : ¬ env.merand48 er.draws * (N : ℚ) ≤ -1 := by linarith
  simp [hneg, hlt]

/-- Storing `x` in slot `n` and marking it filled: the waiting examples lose what slot `n`
held, if it was filled, and gain `x`. -/
theorem pending_store {α : Type} {N : Nat} (er er' : expreplay α N) (n : Fin N) (x : α)
    (hf : er'.filled = Function.update er.filled n true)
    (hbn : er'.buf n = x) (hb : ∀ i, i ≠ n → er'.buf i = er.buf i) :
    pending er' + (if er.filled n then ({er.buf n} : Multiset α) else 0) =
      pending er + {x} := by
  unfold pending
  rw [← Finset.add_sum_erase Finset.univ
      (fun i => if er'.filled i then ({er'.buf i} : Multiset α) else 0) (Finset.mem_univ n),
    ← Finset.add_sum_erase Finset.univ
      (fun i => if er.filled i then ({er.buf i} : Multiset α) else 0) (Finset.mem_univ n)]
  have hrest : (Finset.univ.erase n).sum
        (fun i => if er'.filled i then ({er'.buf i} : Multiset α) else 0) =
      (Finset.univ.erase n).sum
        (fun i => if er.filled i then ({er.buf i} : Multiset α) else 0) := by
    apply Finset.sum_congr rfl
    intro i hi
    have hne : i ≠ n := Finset.ne_of_mem_erase hi
    simp [hf, Function.update_noteq hne, hb i hne]
  rw [hrest]
  simp only [hf, Function.update_same, if_true, hbn]
  abel

/-- One call of `predict_or_learn<true>` with `replay_count = 1` on an example of non-zero
weight, the draw being in [0,1): the example handed to `base.learn`, if any, is the one the
drawn slot held, and the example is stored in that slot. -/
theorem predict_or_learn_step {α : Type} {N : Nat} (env : Env α) (er : expreplay α N)
    (ec : α) (hN : 1 ≤ N) (hrc : er.replay_count = 1)
    (h0 : 0 ≤ env.merand48 er.draws) (h1 : env.merand48 er.draws < 1)
    (hw : env.get_weight (env.predict er.calls ec) ≠ 0) :
    ∃ er', predict_or_learn true env er ec = some (er', env.predict er.calls ec) ∧
      er'.replay_count = 1 ∧ er'.draws = er.draws + 1 ∧
      predicted er'.calls = predicted er.calls ++ [ec] ∧
      ((learned er'.calls : List α) : Multiset α) + pending er' =
        ((learned er.calls : List α) : Multiset α) + pending er +
          {env.predict er.calls ec} := by
  obtain ⟨buf, filled, rc, draws, calls⟩ := er
  simp only at hrc h0 h1 hw ⊢
  subst hrc
  obtain ⟨n, hn⟩ := sample_slot_some env
    ({ buf := buf, filled := filled, replay_count := 1, draws := draws,
       calls := calls ++ [BaseCall.predict ec] } : expreplay α N) hN h0 h1
  simp only [predict_or_learn, Bool.not_true, Bool.false_or, decide_eq_true_eq, hw, if_false,
    Nat.sub_self, replay_loop, hn]
  refine ⟨_, rfl, ?_, ?_, ?_, ?_⟩
  · unfold learn_if_filled
    split_ifs <;> rfl
  · unfold learn_if_filled
    split_ifs <;> rfl
  · unfold learn_if_filled
    split_ifs <;> simp [predicted_append, predicted]
  · by_cases hfl : filled n = true
    · have hp := pending_store
        ({ buf := buf, filled := filled, replay_count := 1, draws := draws,
           calls := calls } : expreplay α N)
        ({ buf := Function.update (Function.update buf n
              (env.learn (calls ++ [BaseCall.predict ec]) (buf n))) n (env.predict calls ec),
           filled := Function.update filled n true, replay_count := 1, draws := draws + 1,
           calls := calls ++ [BaseCall.predict ec] ++ [BaseCall.learn (buf n)] } :
          expreplay α N)
        n (env.predict calls ec) rfl (by simp)
        (by intro i hi; simp [Function.update_noteq hi])
      simp only [hfl, if_true] at hp
      simp only [learn_if_filled, hfl, if_true, learned_append, learned_predict,
        learned_learn, List.append_nil]
      rw [← Multiset.coe_add, Multiset.coe_singleton, add_assoc,
        add_comm ({buf n} : Multiset α), hp, add_assoc]
    · have hp := pending_store
        ({ buf := buf, filled := filled, replay_count := 1, draws := draws,
           calls := calls } : expreplay α N)
        ({ buf := Function.update buf n (env.predict calls ec),
           filled := Function.update filled n true, replay_count := 1, draws := draws + 1,
           calls := calls ++ [BaseCall.predict ec] } : expreplay α N)
        n (env.predict calls ec) rfl (by simp)
        (by intro i hi; simp [Function.update_noteq hi])
      have hfl' : filled n = false := by simpa using hfl
      simp only [hfl', Bool.false_eq_true, if_false, add_zero] at hp
      simp only [learn_if_filled, hfl', Bool.false_eq_true, if_false, learned_append,
        learned_predict, List.append_nil]
      rw [hp, add_assoc]

/-- The loop of `end_pass` over a list of distinct slots: the slots of the list end up
unfilled, the others are untouched, and `base.learn` is handed what the filled slots of the
list held. -/
theorem end_pass_fold {α : Type} {N : Nat} (env : Env α) (l : List (Fin N)) :
    ∀ er : expreplay α N, l.Nodup →
      (∀ n, n ∈ l → (l.foldl (end_pass_step env) er).filled n = false) ∧
      (∀ n, n ∉ l → (l.foldl (end_pass_step env) er).filled n = er.filled n) ∧
      (∀ n, n ∉ l → (l.foldl (end_pass_step env) er).buf n = er.buf n) ∧
      predicted (l.foldl (end_pass_step env) er).calls = predicted er.calls ∧
      (l.foldl (end_pass_step env) er).draws = er.draws ∧
      ((learned (l.foldl (end_pass_step env) er).calls : List α) : Multiset α) =
        ((learned er.calls : List α) : Multiset α) +
          (l.map fun n => if er.filled n then ({er.buf n} : Multiset α) else 0).sum := by
  induction l with
  | nil => intro er _; simp
  | cons a t ih =>
    intro er hnd
    have hat : a ∉ t := (List.nodup_cons.mp hnd).1
    obtain ⟨ih1, ih2, ih3, ih4, ih5, ih6⟩ := ih (end_pass_step env er a) (List.nodup_cons.mp hnd).2
    have hsf : ∀ n, n ≠ a → (end_pass_step env er a).filled n = er.filled n := by
      intro n hn
      unfold end_pass_step
      split_ifs <;> simp [Function.update_noteq hn]
    have hsb : ∀ n, n ≠ a → (end_pass_step env er a).buf n = er.buf n := by
      intro n hn
      unfold end_pass_step
      split_ifs <;> simp [Function.update_noteq hn]
    have hsa : (end_pass_step env er a).filled a = false := by
      unfold end_pass_step
      split_ifs with h
      · simp
      · simpa using h
    simp only [List.foldl_cons]
    refine ⟨?_, ?_, ?_, ?_, ?_, ?_⟩
    · intro n hn
      rcases List.mem_cons.mp hn with rfl | hn
      · rw [ih2 n hat, hsa]
      · exact ih1 n hn
    · intro n hn
      have hna : n ≠ a := fun h => hn (h ▸ List.mem_cons_self _ _)
      have hnt : n ∉ t := fun h => hn (List.mem_cons_of_mem _ h)
      rw [ih2 n hnt, hsf n hna]
    · intro n hn
      have hna : n ≠ a := fun h => hn (h ▸ List.mem_cons_self _ _)
      have hnt : n ∉ t := fun h => hn (List.mem_cons_of_mem _ h)
      rw [ih3 n hnt, hsb n hna]
    · rw [ih4]
      unfold end_pass_step
      split_ifs <;> simp [predicted_append, predicted]
    · rw [ih5]
      unfold end_pass_step
      split_ifs <;> rfl
    · rw [ih6]
      have hmap : (t.map fun n =>
            if (end_pass_step env er a).filled n then
              ({(end_pass_step env er a).buf n} : Multiset α) else 0) =
          (t.map fun n => if er.filled n then ({er.buf n} : Multiset α) else 0) := by
        apply List.map_congr_left
        intro n hn
        have hna : n ≠ a := fun h => hat (h ▸ hn)
        rw [hsf n hna, hsb n hna]
      rw [hmap, List.map_cons, List.sum_cons, ← add_assoc]
      congr 1
      unfold end_pass_step
      by_cases h : er.filled a = true
      · simp only [h, if_true, learned_append, learned_learn]
        rw [← Multiset.coe_add, Multiset.coe_singleton]
      · have h' : er.filled a = false := by simpa using h
        simp [h']

/-- The effect of `end_pass`: every slot is unfilled, `base.predict` is not called, no
number is drawn, and `base.learn` is handed exactly the examples that were waiting. -/
theorem end_pass_spec {α : Type} {N : Nat} (env : Env α) (er : expreplay α N) :
    (∀ n, (end_pass env er).filled n = false) ∧
      predicted (end_pass env er).calls = predicted er.calls ∧
      (end_pass env er).draws = er.draws ∧
      ((learned (end_pass env er).calls : List α) : Multiset α) =
        ((learned er.calls : List α) : Multiset α) + pending er := by
  obtain ⟨h1, -, -, h4, h5, h6⟩ := end_pass_fold env (List.finRange N) er (List.nodup_finRange N)
  refine ⟨fun n => h1 n (List.mem_finRange n), h4, h5, ?_⟩
  unfold end_pass pending
  rw [h6, Fin.sum_univ_def]

/-- A stream of examples of non-zero weight through `predict_or_learn<true>` with
`replay_count = 1` and draws in [0,1): every call returns, and what has been handed to
`base.learn` together with what waits in the buffer grows by exactly the examples of the
stream, as `base.predict` left them. -/
theorem learn_stream_spec {α : Type} {N : Nat} (env : Env α) (hN : 1 ≤ N)
    (hdraw : ∀ k, 0 ≤ env.merand48 k ∧ env.merand48 k < 1) (ecs : List α) :
    ∀ er : expreplay α N, er.replay_count = 1 →
      (∀ ec ∈ ecs, ∀ h, env.get_weight (env.predict h ec) ≠ 0) →
      ∃ er' outs, learn_stream env er ecs = some (er', outs) ∧
        er'.replay_count = 1 ∧
        List.Forall₂ (fun ec out => ∃ h, out = env.predict h ec) ecs outs ∧
        predicted er'.calls = predicted er.calls ++ ecs ∧
        ((learned er'.calls : List α) : Multiset α) + pending er' =
          ((learned er.calls : List α) : Multiset α) + pending er + (outs : Multiset α) := by
  induction ecs with
  | nil =>
    intro er hrc _
    exact ⟨er, [], rfl, hrc, List.Forall₂.nil, by simp, by simp⟩
  | cons ec rest ih =>
    intro er hrc hw
    obtain ⟨er1, h1, hrc1, -, hp1, hm1⟩ := predict_or_learn_step env er ec hN hrc
      (hdraw er.draws).1 (hdraw er.draws).2 (hw ec (List.mem_cons_self _ _) er.calls)
    obtain ⟨er2, outs, h2, hrc2, hf2, hp2, hm2⟩ := ih er1 hrc1
      (fun e he h => hw e (List.mem_cons_of_mem _ he) h)
    refine ⟨er2, env.predict er.calls ec :: outs, ?_, hrc2, ?_, ?_, ?_⟩
    · simp [learn_stream, h1, h2]
    · exact List.Forall₂.cons ⟨er.calls, rfl⟩ hf2
    · rw [hp2, hp1, List.append_assoc, List.singleton_append]
    · rw [hm2, hm1, ← Multiset.cons_coe, ← Multiset.singleton_add, add_assoc]

theorem forall₂_predict_id {α : Type} (env : Env α) (hid : ∀ h e, env.predict h e = e)
    (ecs outs : List α)
    (hf : List.Forall₂ (fun ec out => ∃ h, out = env.predict h ec) ecs outs) : outs = ecs := by
  induction hf with
  | nil => rfl
  | cons hab _ ih =>
    obtain ⟨h, rfl⟩ := hab
    rw [hid, ih]

/-- C16: buffer of `N ≥ 1` slots, none filled, `replay_count = 1`, draws in [0,1), a stream
of examples of non-zero weight handed one by one to `predict_or_learn<true>`, then one
`end_pass`.  Every call returns; each example of the stream is stored as `base.predict`
left it, and the examples handed to `base.learn` during the run are a permutation of these
stored copies (of the stream itself when `base.predict` leaves examples as they are); in
the end no slot is marked filled. -/
theorem replay_count_one_permutes {α : Type} {N : Nat} (env : Env α) (er : expreplay α N)
    (ecs : List α) (hN : 1 ≤ N) (hrc : er.replay_count = 1)
    (hfilled : ∀ n, er.filled n = false)
    (hdraw : ∀ k, 0 ≤ env.merand48 k ∧ env.merand48 k < 1)
    (hw : ∀ ec ∈ ecs, ∀ h, env.get_weight (env.predict h ec) ≠ 0) :
    ∃ er' outs, learn_stream env er ecs = some (er', outs) ∧
      List.Forall₂ (fun ec out => ∃ h, out = env.predict h ec) ecs outs ∧
      (learned (end_pass env er').calls).Perm (learned er.calls ++ outs) ∧
      ((∀ h e, env.predict h e = e) →
        (learned (end_pass env er').calls).Perm (learned er.calls ++ ecs)) ∧
      (∀ n, (end_pass env er').filled n = false) := by
  obtain ⟨er', outs, hrun, -, hf, -, hm⟩ := learn_stream_spec env hN hdraw ecs er hrc hw
  obtain ⟨he1, -, -, he4⟩ := end_pass_spec env er'
  have hp0 : pending er = 0 := by simp [pending, hfilled]
  have hperm : (learned (end_pass env er').calls).Perm (learned er.calls ++ outs) := by
    rw [← Multiset.coe_eq_coe, he4, hm, hp0, add_zero, Multiset.coe_add]
  refine ⟨er', outs, hrun, hf, hperm, ?_, he1⟩
  intro hid
  rw [← forall₂_predict_id env hid ecs outs hf]
  exact hperm

theorem replay_count_one_permutes_witness :
    ((1 : Nat) ≤ 2 ∧ (setup (fun _ : Fin 2 => ((0 : Nat), (0 : ℚ))) 1).replay_count = 1) ∧
      ∃ er' outs,
        learn_stream sample_env (setup (fun _ : Fin 2 => ((0 : Nat), (0 : ℚ))) 1)
            [(1, 1), (2, 1), (3, 1)] = some (er', outs) ∧
          List.Forall₂ (fun ec out => ∃ h, out = sample_env.predict h ec)
            [(1, 1), (2, 1), (3, 1)] outs ∧
          (learned (end_pass sample_env er').calls).Perm
            (learned (setup (fun _ : Fin 2 => ((0 : Nat), (0 : ℚ))) 1).calls ++ outs) ∧
          ((∀ h e, sample_env.predict h e = e) →
            (learned (end_pass sample_env er').calls).Perm
              (learned (setup (fun _ : Fin 2 => ((0 : Nat), (0 : ℚ))) 1).calls ++
                [(1, 1), (2, 1), (3, 1)])) ∧
          (∀ n, (end_pass sample_env er').filled n = false) :=
  ⟨⟨by decide, rfl⟩,
    replay_count_one_permutes sample_env (setup (fun _ : Fin 2 => ((0 : Nat), (0 : ℚ))) 1)
      [(1, 1), (2, 1), (3, 1)] (by decide) rfl (fun _ => rfl)
      (by
        intro k
        simp only [sample_env]
        split_ifs <;> norm_num)
      (by
        intro ec hec h
        simp only [List.mem_cons, List.mem_singleton, List.not_mem_nil, or_false] at hec
        rcases hec with rfl | rfl | rfl <;> simp [sample_env])⟩

theorem learn_if_filled_calls {α : Type} {N : Nat} (env : Env α) (er : expreplay α N)
    (n : Fin N) :
    ∃ learns : List α,
      (learn_if_filled env er n).calls = er.calls ++ learns.map BaseCall.learn := by
  unfold learn_if_filled
  split_ifs
  · exact ⟨[er.buf n], rfl⟩
  · exact ⟨[], by simp⟩

theorem replay_loop_calls {α : Type} {N : Nat} (env : Env α) (k : Nat) :
    ∀ er er' : expreplay α N, replay_loop env k er = some er' →
      ∃ learns : List α, er'.calls = er.calls ++ learns.map BaseCall.learn := by
  induction k with
  | zero =>
    intro er er' h
    simp only [replay_loop, Option.some.injEq] at h
    exact ⟨[], by simp [h]⟩
  | succ k ih =>
    intro er er' h
    simp only [replay_loop] at h
    cases hs : sample_slot env er with
    | none => rw [hs] at h; simp at h
    | some n =>
      rw [hs] at h
      obtain ⟨l2, h2⟩ := ih _ er' h
      obtain ⟨l1, h1⟩ := learn_if_filled_calls env
        ({ er with draws := er.draws + 1 } : expreplay α N) n
      exact ⟨l1 ++ l2, by rw [h2, h1]; simp⟩

/-- C17: `predict_or_learn` hands the example to `base.predict` first.  When `is_learn` is
false or the weight of the example is 0, that is all: the call returns the state with this
one call recorded and nothing else changed (no `base.learn`, no draw, same buffer, same
filled flags).  And whenever the call returns, the calls it made on the base learner are
this one `base.predict` on the example followed by calls of `base.learn` only. -/
theorem predict_or_learn_predicts_once {α : Type} {N : Nat} (env : Env α)
    (er : expreplay α N) (ec : α) (is_learn : Bool) :
    ((is_learn = false ∨ env.get_weight (env.predict er.calls ec) = 0) →
      predict_or_learn is_learn env er ec =
        some ({ er with calls := er.calls ++ [BaseCall.predict ec] },
          env.predict er.calls ec)) ∧
    (∀ er' ec', predict_or_learn is_learn env er ec = some (er', ec') →
      ec' = env.predict er.calls ec ∧
      ∃ learns : List α,
        er'.calls = er.calls ++ BaseCall.predict ec :: learns.map BaseCall.learn) := by
  constructor
  · intro h
    unfold predict_or_learn
    rcases h with h | h
    · simp [h]
    · simp [h]
  · intro er' ec' h
    unfold predict_or_learn at h
    simp only at h
    split_ifs at h with hc
    · simp only [Option.some.injEq, Prod.mk.injEq] at h
      obtain ⟨rfl, rfl⟩ := h
      exact ⟨rfl, [], by simp⟩
    · cases hr : replay_loop env (er.replay_count - 1)
          ({ er with calls := er.calls ++ [BaseCall.predict ec] } : expreplay α N) with
      | none => rw [hr] at h; simp at h
      | some er1 =>
        rw [hr] at h
        simp only at h
        obtain ⟨l1, h1⟩ := replay_loop_calls env _ _ er1 hr
        cases hs : sample_slot env er1 with
        | none => rw [hs] at h; simp at h
        | some n =>
          rw [hs] at h
          simp only [Option.some.injEq, Prod.mk.injEq] at h
          obtain ⟨rfl, rfl⟩ := h
          obtain ⟨l2, h2⟩ := learn_if_filled_calls env
            ({ er1 with draws := er1.draws + 1 } : expreplay α N) n
          refine ⟨rfl, l1 ++ l2, ?_⟩
          simp only at h1 h2 ⊢
          rw [h2, h1]
          simp

end ExpReplay
